import Mathlib

/-!
Exam-room / faculty-duty allocation front end: submit handlers

A shallow embedding of the three browser scripts of the repository

* `frontend/phase1.js`  (exam-room allocation page),
* `frontend/phase2.js`  (faculty-duty allocation page),
* `frontend/script.js`  (legacy single-page variant),

together with theorems about what the submit handlers do to the page.

Modelling conventions:

* A handler is embedded as a function from its inputs (the form, and what the
  network answers) to a `Js` computation: the list of effects it performs, in
  program order, and its completion (normal, or an exception that escaped).
  The handlers never read the page, so the effect list does not depend on the
  page state; `exec`/`run` interpret the effects on a `World`.
* `Stmt.await` marks a suspension point (`await`): it changes nothing, the
  states in which the handler is suspended are `statesAtAwait`.
* The page is a total map from element ids to elements: the HTML pages are
  assumed to contain every element the scripts look up with
  `document.getElementById`.
* `Element.innerHTML` records the markup last assigned to `innerHTML`;
  `Element.content` is what the page then holds: the assignment parses the
  markup (`parseFragment`, a model of text, `div` and `span` elements with
  attributes; anything else is reported as outside the model).
* A JSON number is represented by its rendering under the language's
  number-to-string conversion.
-/

namespace ExamAlloc

/-! ## Values -/

/-- An exception object; the handlers only read its `message`. -/
structure JsError where
  message : String
deriving DecidableEq, Repr

mutual
/-- A value produced by parsing a response body as JSON. -/
inductive Json where
  | null
  | bool (b : Bool)
  | num (text : String)
  | str (s : String)
  | arr (items : JsonList)
  | obj (fields : JsonFields)
/-- The elements of a JSON array. -/
inductive JsonList where
  | nil
  | cons (head : Json) (tail : JsonList)
/-- The own properties of a parsed JSON object (one entry per key). -/
inductive JsonFields where
  | nil
  | cons (key : String) (value : Json) (rest : JsonFields)
end

/-- The result of a property read: `undefined` or a JSON value. -/
inductive JsValue where
  | undefined
  | json (j : Json)

/-- Own-property lookup in a parsed JSON object. -/
def JsonFields.get? : JsonFields → String → Option Json
  | .nil, _ => none
  | .cons k v rest, name => if k = name then some v else rest.get? name

/-- A form-data entry value: a string field or an attached file. -/
inductive FormDataEntryValue where
  | text (value : String)
  | file (filename : String) (content : List Nat)
deriving DecidableEq, Repr

/-- The form element the handler is bound to (`this`), as its entry list:
the names and current values of its submittable controls. -/
structure Form where
  entries : List (String × FormDataEntryValue)
deriving DecidableEq, Repr

/-- The multipart payload, `new FormData(form)`. -/
structure FormData where
  entries : List (String × FormDataEntryValue)
deriving DecidableEq, Repr

/-- The second argument of `fetch`. -/
structure RequestInit where
  method : String
  body : FormData
deriving DecidableEq, Repr

/-- A request handed to the network by `fetch`. -/
structure Request where
  url : String
  method : String
  body : FormData
deriving DecidableEq, Repr

/-- A response delivered by the network: its status code and what reading the
body as JSON (`res.json()`) yields: a value, or a rejection. -/
structure Response where
  status : Nat
  body : Except JsError Json

/-- What the network answers to a `fetch`: the promise is rejected (no response
arrived) or resolved with a response. -/
inductive FetchResult where
  | rejected (error : JsError)
  | resolved (res : Response)

/-- The `ok` attribute of a response: the status is in the range 200 to 299. -/
def Response.ok (res : Response) : Bool :=
  decide (200 ≤ res.status) && decide (res.status ≤ 299)

/-! ## Page content: the markup parser behind `innerHTML` -/

/-- A node of the content of an element: text, or an element with its
attributes and children. -/
inductive Node where
  | text (data : String)
  | element (tag : String) (attrs : List (String × String)) (children : List Node)

/-- A tag token being read: start or end tag, name, attributes so far. -/
structure TagToken where
  isEnd : Bool
  name : String
  attrs : List (String × String)

/-- The tokenizer states of the modelled part of the markup language. -/
inductive Tokenizer where
  | data
  | tagOpen
  | endTagOpen
  | tagName (tok : TagToken)
  | beforeAttributeName (tok : TagToken)
  | attributeName (tok : TagToken) (name : String)
  | afterAttributeName (tok : TagToken) (name : String)
  | beforeAttributeValue (tok : TagToken) (name : String)
  | attributeValueDouble (tok : TagToken) (name : String) (value : String)
  | attributeValueSingle (tok : TagToken) (name : String) (value : String)
  | attributeValueUnquoted (tok : TagToken) (name : String) (value : String)
  | afterAttributeValueQuoted (tok : TagToken)
  | selfClosingStartTag (tok : TagToken)

/-- An element on the stack of open elements; its children so far, last first. -/
structure OpenElement where
  tag : String
  attrs : List (String × String)
  revChildren : List Node

/-- The tree under construction: the open elements above the fragment root,
current node first, and the children of the root so far, last first. -/
structure Tree where
  stack : List OpenElement
  root : List Node

/-- The parser: tokenizer state and tree. -/
structure Parser where
  tokenizer : Tokenizer
  tree : Tree

/-- Append a character to a child list (last first): it extends a text node
that ends the list, or starts a new text node. -/
def appendCharacter (revChildren : List Node) (c : Char) : List Node :=
  match revChildren with
  | .text s :: rest => .text (s.push c) :: rest
  | _ => .text (String.singleton c) :: revChildren

/-- Insert a character at the current node. -/
def Tree.insertCharacter (t : Tree) (c : Char) : Tree :=
  match t.stack with
  | [] => { t with root := appendCharacter t.root c }
  | el :: rest =>
    { t with stack := { el with revChildren := appendCharacter el.revChildren c } :: rest }

/-- Append a node to the children of the current node. -/
def Tree.insertNode (t : Tree) (n : Node) : Tree :=
  match t.stack with
  | [] => { t with root := n :: t.root }
  | el :: rest => { t with stack := { el with revChildren := n :: el.revChildren } :: rest }

/-- A child list (last first) with one more pending child. -/
def attach (pending : Option Node) (revChildren : List Node) : List Node :=
  match pending with
  | none => revChildren
  | some n => n :: revChildren

/-- Pop the open elements from the current node up to and including the first
one with the given tag; each popped element becomes a child of the one below. -/
def popThrough (name : String) : List OpenElement → Option Node → List Node → Tree
  | [], pending, root => ⟨[], attach pending root⟩
  | el :: rest, pending, root =>
    if el.tag = name then
      Tree.insertNode ⟨rest, root⟩
        (.element el.tag el.attrs (attach pending el.revChildren).reverse)
    else
      popThrough name rest
        (some (.element el.tag el.attrs (attach pending el.revChildren).reverse)) root

/-- Close every open element at the end of the input; the children of the
root, last first. -/
def closeAll : List OpenElement → Option Node → List Node → List Node
  | [], pending, root => attach pending root
  | el :: rest, pending, root =>
    closeAll rest (some (.element el.tag el.attrs (attach pending el.revChildren).reverse)) root

/-- Add a finished attribute to a tag token; a repeated name is dropped. -/
def TagToken.addAttr (tok : TagToken) (name value : String) : TagToken :=
  if tok.attrs.any (fun a => a.1 = name) then tok
  else { tok with attrs := tok.attrs ++ [(name, value)] }

/-- Tree construction for a tag token, in the body of a fragment. Modelled are
`div` (a block element: its end tag closes every element opened inside it)
and `span` (an ordinary element: its end tag closes it only when it is the
current node); every other element is outside the model. -/
def emitTag (tok : TagToken) (t : Tree) : Option Tree :=
  if tok.name = "div" then
    if tok.isEnd then
      if t.stack.any (fun el => el.tag = "div") then
        some (popThrough "div" t.stack none t.root)
      else some t
    else some { t with stack := ⟨"div", tok.attrs, []⟩ :: t.stack }
  else if tok.name = "span" then
    if tok.isEnd then
      match t.stack with
      | el :: rest =>
        if el.tag = "span" then
          some (Tree.insertNode ⟨rest, t.root⟩
            (.element el.tag el.attrs el.revChildren.reverse))
        else some t
      | [] => some t
    else some { t with stack := ⟨"span", tok.attrs, []⟩ :: t.stack }
  else none

/-- Tab, line feed, form feed, space. -/
def isWhitespace (c : Char) : Bool :=
  c = Char.ofNat 9 || c = Char.ofNat 10 || c = Char.ofNat 12 || c = Char.ofNat 32

/-- The quotation mark character. -/
def quotationMark : Char := Char.ofNat 34

/-- The apostrophe character. -/
def apostropheMark : Char := Char.ofNat 39

/-- Characters outside the model in every state: the ampersand (character
references), NUL and carriage return (input preprocessing). -/
def outsideModel (c : Char) : Bool :=
  c = '&' || c = Char.ofNat 0 || c = Char.ofNat 13

/-- Finish a tag token and return to the data state. -/
def finishTag (tok : TagToken) (t : Tree) : Option Parser :=
  match emitTag tok t with
  | some t2 => some ⟨.data, t2⟩
  | none => none

/-- The before-attribute-name state. -/
def beforeAttributeName (tok : TagToken) (t : Tree) (c : Char) : Option Parser :=
  if isWhitespace c then some ⟨.beforeAttributeName tok, t⟩
  else if c = '/' then some ⟨.selfClosingStartTag tok, t⟩
  else if c = '>' then finishTag tok t
  else some ⟨.attributeName tok (String.singleton c.toLower), t⟩

/-- One step of the parser on one input character; `none` when the input
leaves the modelled part of the language (comments, declarations, character
references, elements other than `div` and `span`). -/
def step (p : Parser) (c : Char) : Option Parser :=
  if outsideModel c then none
  else
    match p.tokenizer with
    | .data =>
      if c = '<' then some ⟨.tagOpen, p.tree⟩
      else some ⟨.data, p.tree.insertCharacter c⟩
    | .tagOpen =>
      if c = '/' then some ⟨.endTagOpen, p.tree⟩
      else if c.isAlpha then some ⟨.tagName ⟨false, String.singleton c.toLower, []⟩, p.tree⟩
      else if c = '!' || c = '?' then none
      else if c = '<' then some ⟨.tagOpen, p.tree.insertCharacter '<'⟩
      else some ⟨.data, (p.tree.insertCharacter '<').insertCharacter c⟩
    | .endTagOpen =>
      if c.isAlpha then some ⟨.tagName ⟨true, String.singleton c.toLower, []⟩, p.tree⟩
      else if c = '>' then some ⟨.data, p.tree⟩
      else none
    | .tagName tok =>
      if isWhitespace c then some ⟨.beforeAttributeName tok, p.tree⟩
      else if c = '/' then some ⟨.selfClosingStartTag tok, p.tree⟩
      else if c = '>' then finishTag tok p.tree
      else some ⟨.tagName { tok with name := tok.name.push c.toLower }, p.tree⟩
    | .beforeAttributeName tok => beforeAttributeName tok p.tree c
    | .attributeName tok name =>
      if isWhitespace c then some ⟨.afterAttributeName tok name, p.tree⟩
      else if c = '/' then some ⟨.selfClosingStartTag (tok.addAttr name ""), p.tree⟩
      else if c = '>' then finishTag (tok.addAttr name "") p.tree
      else if c = '=' then some ⟨.beforeAttributeValue tok name, p.tree⟩
      else some ⟨.attributeName tok (name.push c.toLower), p.tree⟩
    | .afterAttributeName tok name =>
      if isWhitespace c then some ⟨.afterAttributeName tok name, p.tree⟩
      else if c = '/' then some ⟨.selfClosingStartTag (tok.addAttr name ""), p.tree⟩
      else if c = '=' then some ⟨.beforeAttributeValue tok name, p.tree⟩
      else if c = '>' then finishTag (tok.addAttr name "") p.tree
      else some ⟨.attributeName (tok.addAttr name "") (String.singleton c.toLower), p.tree⟩
    | .beforeAttributeValue tok name =>
      if isWhitespace c then some ⟨.beforeAttributeValue tok name, p.tree⟩
      else if c = quotationMark then some ⟨.attributeValueDouble tok name "", p.tree⟩
      else if c = apostropheMark then some ⟨.attributeValueSingle tok name "", p.tree⟩
      else if c = '>' then finishTag (tok.addAttr name "") p.tree
      else some ⟨.attributeValueUnquoted tok name (String.singleton c), p.tree⟩
    | .attributeValueDouble tok name value =>
      if c = quotationMark then some ⟨.afterAttributeValueQuoted (tok.addAttr name value), p.tree⟩
      else some ⟨.attributeValueDouble tok name (value.push c), p.tree⟩
    | .attributeValueSingle tok name value =>
      if c = apostropheMark then some ⟨.afterAttributeValueQuoted (tok.addAttr name value), p.tree⟩
      else some ⟨.attributeValueSingle tok name (value.push c), p.tree⟩
    | .attributeValueUnquoted tok name value =>
      if isWhitespace c then some ⟨.beforeAttributeName (tok.addAttr name value), p.tree⟩
      else if c = '>' then finishTag (tok.addAttr name value) p.tree
      else some ⟨.attributeValueUnquoted tok name (value.push c), p.tree⟩
    | .afterAttributeValueQuoted tok => beforeAttributeName tok p.tree c
    | .selfClosingStartTag tok =>
      if c = '>' then finishTag tok p.tree
      else beforeAttributeName tok p.tree c

/-- Feed the input characters to the parser, in order. -/
def feed (p : Parser) : List Char → Option Parser
  | [] => some p
  | c :: cs =>
    match step p c with
    | some q => feed q cs
    | none => none

/-- The end of the input: a pending `<` or `</` is text, an unfinished tag is
dropped, and every open element is closed. -/
def finish (p : Parser) : List Node :=
  match p.tokenizer with
  | .data => (closeAll p.tree.stack none p.tree.root).reverse
  | .tagOpen =>
    (closeAll (p.tree.insertCharacter '<').stack none (p.tree.insertCharacter '<').root).reverse
  | .endTagOpen =>
    (closeAll ((p.tree.insertCharacter '<').insertCharacter '/').stack none
      ((p.tree.insertCharacter '<').insertCharacter '/').root).reverse
  | _ => (closeAll p.tree.stack none p.tree.root).reverse

/-- The content an element gets when the markup is assigned to its
`innerHTML`: the fragment is parsed in the body of an ordinary container
element. The result is `none` when the markup is outside the modelled part of
the language. -/
def parseFragment (html : String) : Option (List Node) :=
  match feed ⟨.data, ⟨[], []⟩⟩ html.data with
  | some p => some (finish p)
  | none => none

/-! ## Effects and the page -/

/-- The effects a handler can perform. -/
inductive Stmt where
  | preventDefault
  | setInnerHTML (id : String) (html : String)
  | setDisabled (id : String) (value : Bool)
  | setDisplay (id : String) (value : String)
  | setHref (id : String) (value : String)
  | setTextContent (id : String) (value : String)
  | alert (message : String)
  | fetch (req : Request)
  | await
deriving DecidableEq, Repr

/-- The properties of a page element that the scripts write, and the content
the page shows for it: `innerHTML` is the markup last assigned, `content` the
nodes the element holds as a result (`none`: outside the modelled markup). -/
structure Element where
  innerHTML : String
  disabled : Bool
  display : String
  href : String
  textContent : String
  content : Option (List Node)

/-- The page and its environment. -/
structure World where
  dom : String → Element
  defaultPrevented : Bool
  alerts : List String
  requests : List Request

/-- Replace the element with the given id. -/
def World.setElem (w : World) (id : String) (f : Element → Element) : World :=
  { w with dom := fun j => if j = id then f (w.dom j) else w.dom j }

/-- The effect of one statement on the page. -/
def exec : Stmt → World → World
  | .preventDefault, w => { w with defaultPrevented := true }
  | .setInnerHTML id html, w =>
    w.setElem id (fun el => { el with innerHTML := html, content := parseFragment html })
  | .setDisabled id b, w => w.setElem id (fun el => { el with disabled := b })
  | .setDisplay id v, w => w.setElem id (fun el => { el with display := v })
  | .setHref id v, w => w.setElem id (fun el => { el with href := v })
  | .setTextContent id v, w => w.setElem id (fun el => { el with textContent := v })
  | .alert msg, w => { w with alerts := w.alerts ++ [msg] }
  | .fetch req, w => { w with requests := w.requests ++ [req] }
  | .await, w => w

/-- Run a list of effects in order. -/
def run : List Stmt → World → World
  | [], w => w
  | s :: rest, w => run rest (exec s w)

/-- The page states in which the handler is suspended at an `await`. -/
def statesAtAwait : List Stmt → World → List World
  | [], _ => []
  | .await :: rest, w => w :: statesAtAwait rest w
  | s :: rest, w => statesAtAwait rest (exec s w)

/-- The URLs a statement uses: the target of a request, or a link target. -/
def Stmt.urls : Stmt → List String
  | .fetch req => [req.url]
  | .setHref _ v => [v]
  | _ => []

/-! ## Computations -/

/-- How a computation ends: with a value, or with a thrown exception. -/
inductive Completion (α : Type) where
  | normal (value : α)
  | throw (error : JsError)
deriving DecidableEq

/-- A computation: the effects performed, in order, and the completion. -/
structure Js (α : Type) where
  effects : List Stmt
  completion : Completion α

/-- Sequencing: a thrown exception skips the rest. -/
def Js.bind {α β : Type} (m : Js α) (f : α → Js β) : Js β :=
  match m.completion with
  | .throw e => ⟨m.effects, .throw e⟩
  | .normal a => ⟨m.effects ++ (f a).effects, (f a).completion⟩

instance : Monad Js where
  pure a := ⟨[], .normal a⟩
  bind := Js.bind

/-- Perform one effect. -/
def emit (s : Stmt) : Js Unit := ⟨[s], .normal ()⟩

/-- Throw an exception. -/
def throwJs {α : Type} (e : JsError) : Js α := ⟨[], .throw e⟩

/-- The statement `try { body } catch (error) { handler error }`. -/
def tryCatch {α : Type} (body : Js α) (handler : JsError → Js α) : Js α :=
  match body.completion with
  | .normal a => ⟨body.effects, .normal a⟩
  | .throw e => ⟨body.effects ++ (handler e).effects, (handler e).completion⟩

/-! ## Language and platform operations used by the scripts -/

/-- The expression `new FormData(form)`. -/
def FormData.ofForm (form : Form) : FormData := ⟨form.entries⟩

/-- The expression `await fetch(url, init)`: the request is issued, the handler
suspends, and resumes with the response or with the rejection thrown. -/
def fetch (url : String) (init : RequestInit) (net : FetchResult) : Js Response :=
  ⟨[.fetch ⟨url, init.method, init.body⟩, .await],
    match net with
    | .rejected e => .throw e
    | .resolved res => .normal res⟩

/-- The expression `await res.json()`: the handler suspends, and resumes with
the parsed body or with the parse failure thrown. -/
def Response.json (res : Response) : Js Json :=
  ⟨[.await],
    match res.body with
    | .error e => .throw e
    | .ok data => .normal data⟩

/-- The expression `data.error` on a parsed JSON value: reading a property of
`null` throws, an object yields its own property or `undefined`, every other
value yields `undefined`. -/
def Json.error : Json → Js JsValue
  | .null => throwJs ⟨"Cannot read properties of null (reading 'error')"⟩
  | .obj fields =>
    match fields.get? "error" with
    | some v => pure (.json v)
    | none => pure .undefined
  | _ => pure .undefined

mutual
/-- String conversion of a JSON value, as done by string concatenation. An
object converts to `[object Object]`, unless it has an own `toString` property
(never callable in parsed JSON), in which case the conversion throws; an array
converts to its elements joined by commas. -/
def Json.toStr : Json → Completion String
  | .null => .normal "null"
  | .bool b => .normal (if b then "true" else "false")
  | .num text => .normal text
  | .str s => .normal s
  | .arr items => JsonList.join items
  | .obj fields =>
    match fields.get? "toString" with
    | some _ => .throw ⟨"Cannot convert object to primitive value"⟩
    | none => .normal "[object Object]"
termination_by structural j => j
/-- Array join: the first element, then each further element after a comma. -/
def JsonList.join : JsonList → Completion String
  | .nil => .normal ""
  | .cons h t =>
    match (match h with | .null => Completion.normal "" | _ => Json.toStr h), JsonList.joinRest t with
    | .normal a, .normal b => .normal (a ++ b)
    | .throw e, _ => .throw e
    | .normal _, .throw e => .throw e
termination_by structural l => l
/-- The remaining elements of a join, each preceded by a comma; `null`
elements are rendered empty. -/
def JsonList.joinRest : JsonList → Completion String
  | .nil => .normal ""
  | .cons h t =>
    match (match h with | .null => Completion.normal "" | _ => Json.toStr h), JsonList.joinRest t with
    | .normal a, .normal b => .normal ("," ++ a ++ b)
    | .throw e, _ => .throw e
    | .normal _, .throw e => .throw e
termination_by structural l => l
end

/-- String conversion of a property value. -/
def JsValue.toStr : JsValue → Completion String
  | .undefined => .normal "undefined"
  | .json j => j.toStr

/-- The expression `prefix + v` with a string on the left. -/
def concat (pre : String) (v : JsValue) : Js String :=
  match v.toStr with
  | .normal s => pure (pre ++ s)
  | .throw e => throwJs e

/-! ## `phase1.js` and `phase2.js` -/

/-- The markup built by the template literal in `showBanner`. -/
def bannerMarkup (message type : String) : String :=
  "<div class='banner banner-" ++ type ++ "'>" ++ message ++ "</div>"

/-- `function showBanner(message, type)` -/
def showBanner (message type : String) : Js Unit :=
  emit (.setInnerHTML "banner" (bannerMarkup message type))

/-- `function clearBanner()` -/
def clearBanner : Js Unit :=
  emit (.setInnerHTML "banner" "")

/-- The submit handler of `phase1-form` in `phase1.js`. -/
def phase1_onsubmit (form : Form) (net : FetchResult) : Js Unit := do
  emit .preventDefault
  clearBanner
  emit (.setDisabled "submit-btn" true)
  emit (.setDisplay "spinner" "inline-block")
  emit (.setDisplay "download-phase1" "none")
  let formData := FormData.ofForm form
  tryCatch
    (do
      let res ← fetch "http://localhost:5000/upload" ⟨"POST", formData⟩ net
      let data ← res.json
      if res.ok then
        showBanner "Allocation completed successfully!" "success"
        emit (.setDisplay "download-phase1" "block")
        emit (.setHref "download-phase1" "http://localhost:5000/download/phase1")
        emit (.setDisplay "summary-banner" "block")
        emit (.setTextContent "summary-text" "120 students allocated to 5 rooms.")
      else
        let err ← data.error
        let message ← concat "Error: " err
        showBanner message "error")
    (fun error => showBanner ("Error: " ++ error.message) "error")
  emit (.setDisabled "submit-btn" false)
  emit (.setDisplay "spinner" "none")

/-- The submit handler of `phase2-form` in `phase2.js`. -/
def phase2_onsubmit (form : Form) (net : FetchResult) : Js Unit := do
  emit .preventDefault
  clearBanner
  emit (.setDisabled "submit-btn" true)
  emit (.setDisplay "spinner" "inline-block")
  emit (.setDisplay "download-phase2" "none")
  let formData := FormData.ofForm form
  tryCatch
    (do
      let res ← fetch "http://localhost:5000/allocate" ⟨"POST", formData⟩ net
      let data ← res.json
      if res.ok then
        showBanner "Faculty allocation completed!" "success"
        emit (.setDisplay "download-phase2" "block")
        emit (.setHref "download-phase2" "http://localhost:5000/download/phase2")
        emit (.setDisplay "summary-banner" "block")
        emit (.setTextContent "summary-text" "Faculty allocated successfully.")
      else
        let err ← data.error
        let message ← concat "Error: " err
        showBanner message "error")
    (fun error => showBanner ("Error: " ++ error.message) "error")
  emit (.setDisabled "submit-btn" false)
  emit (.setDisplay "spinner" "none")

/-! ## `script.js` (legacy single page) -/

/-- The submit handler of `phase1-form` in `script.js`. -/
def script_phase1_onsubmit (form : Form) (net : FetchResult) : Js Unit := do
  emit .preventDefault
  let formData := FormData.ofForm form
  tryCatch
    (do
      let res ← fetch "http://localhost:5000/upload" ⟨"POST", formData⟩ net
      let data ← res.json
      if res.ok then
        emit (.alert "Allocation completed successfully! Click the download link below to get the result.")
        emit (.setDisplay "download-link" "block")
        emit (.setHref "download-link" "http://localhost:5000/download")
      else
        let err ← data.error
        let message ← concat "Error: " err
        emit (.alert message))
    (fun error => emit (.alert ("Error: " ++ error.message)))

/-- The submit handler of `phase2-form` in `script.js`. -/
def script_phase2_onsubmit (form : Form) (net : FetchResult) : Js Unit := do
  emit .preventDefault
  let formData := FormData.ofForm form
  tryCatch
    (do
      let res ← fetch "http://localhost:5000/allocate" ⟨"POST", formData⟩ net
      let data ← res.json
      if res.ok then
        emit (.alert "Faculty allocation completed! Click the download link below to get the result.")
        emit (.setDisplay "download-link" "block")
        emit (.setHref "download-link" "http://localhost:5000/download")
      else
        let err ← data.error
        let message ← concat "Error: " err
        emit (.alert message))
    (fun error => emit (.alert ("Error: " ++ error.message)))

/-! ## The parameterised controller -/

/-- The configuration record of a submission controller. -/
structure Config where
  submitEndpoint : String
  downloadEndpoint : String
  successMessage : String
  summaryText : String
deriving DecidableEq, Repr

/-- The host and port of the allocation service, fixed in the scripts. -/
def baseUrl : String := "http://localhost:5000"

/-- The single reusable Form Submission Controller described by the
specification: the contract steps 1 to 9, built from a configuration record
and bound to the download element of its page. -/
def controller (cfg : Config) (downloadId : String) (form : Form) (net : FetchResult) :
    Js Unit := do
  emit .preventDefault
  clearBanner
  emit (.setDisabled "submit-btn" true)
  emit (.setDisplay "spinner" "inline-block")
  emit (.setDisplay downloadId "none")
  let formData := FormData.ofForm form
  tryCatch
    (do
      let res ← fetch (baseUrl ++ cfg.submitEndpoint) ⟨"POST", formData⟩ net
      let data ← res.json
      if res.ok then
        showBanner cfg.successMessage "success"
        emit (.setDisplay downloadId "block")
        emit (.setHref downloadId (baseUrl ++ cfg.downloadEndpoint))
        emit (.setDisplay "summary-banner" "block")
        emit (.setTextContent "summary-text" cfg.summaryText)
      else
        let err ← data.error
        let message ← concat "Error: " err
        showBanner message "error")
    (fun error => showBanner ("Error: " ++ error.message) "error")
  emit (.setDisabled "submit-btn" false)
  emit (.setDisplay "spinner" "none")

/-- The configuration of the phase-1 page. -/
def phase1Config : Config :=
  ⟨"/upload", "/download/phase1", "Allocation completed successfully!",
    "120 students allocated to 5 rooms."⟩

/-- The configuration of the phase-2 page. -/
def phase2Config : Config :=
  ⟨"/allocate", "/download/phase2", "Faculty allocation completed!",
    "Faculty allocated successfully."⟩

/-- The request succeeded: a response arrived, its status is in 200 to 299 and
its body parsed as JSON. -/
def isSuccess : FetchResult → Bool
  | .rejected _ => false
  | .resolved res =>
    res.ok && (match res.body with | .ok _ => true | .error _ => false)

/-- The effect list of a failed submission on a phase page: `aw` holds the
second suspension when a response arrived, `m` is the message shown. -/
def failureEffects (cfg : Config) (dl : String) (form : Form) (aw : List Stmt) (m : String) :
    List Stmt :=
  [.preventDefault, .setInnerHTML "banner" "", .setDisabled "submit-btn" true,
    .setDisplay "spinner" "inline-block", .setDisplay dl "none",
    .fetch ⟨baseUrl ++ cfg.submitEndpoint, "POST", FormData.ofForm form⟩, .await] ++ aw ++
  [.setInnerHTML "banner" (bannerMarkup ("Error: " ++ m) "error"),
    .setDisabled "submit-btn" false, .setDisplay "spinner" "none"]

/-- The element properties the scripts write. -/
inductive Field where
  | innerHTML
  | disabled
  | display
  | href
  | textContent
deriving DecidableEq, Repr

/-- The element and property a statement writes, if any. -/
def Stmt.sets : Stmt → Option (String × Field)
  | .setInnerHTML id _ => some (id, .innerHTML)
  | .setDisabled id _ => some (id, .disabled)
  | .setDisplay id _ => some (id, .display)
  | .setHref id _ => some (id, .href)
  | .setTextContent id _ => some (id, .textContent)
  | _ => none

/-- An element with every property empty. -/
def Element.blank : Element := ⟨"", false, "", "", "", some []⟩

/-- A freshly loaded page: nothing displayed, nothing sent. -/
def World.fresh : World := ⟨fun _ => Element.blank, false, [], []⟩

/-- A page on which earlier successful submissions have left the success
banner, the download links and the summary displayed. -/
def World.afterSuccess : World :=
  ⟨fun id =>
      if id = "banner" then
        ⟨"<div class='banner banner-success'>Allocation completed successfully!</div>",
          false, "", "", "",
          parseFragment
            "<div class='banner banner-success'>Allocation completed successfully!</div>"⟩
      else if id = "download-phase1" then
        ⟨"", false, "block", "http://localhost:5000/download/phase1", "", some []⟩
      else if id = "download-phase2" then
        ⟨"", false, "block", "http://localhost:5000/download/phase2", "", some []⟩
      else if id = "download-link" then
        ⟨"", false, "block", "http://localhost:5000/download", "", some []⟩
      else if id = "summary-banner" then ⟨"", false, "block", "", "", some []⟩
      else if id = "summary-text" then
        ⟨"", false, "", "", "120 students allocated to 5 rooms.", some []⟩
      else Element.blank,
    false, [], []⟩

/-- A form with two fields: a text field and an attached file. -/
def Form.sample : Form :=
  ⟨[("exam", .text "midterm"), ("file", .file "students.csv" [105, 100, 10, 49, 10])]⟩

/-- The string has no character that the markup parser treats specially: no
`<`, no ampersand, no NUL and no carriage return. -/
def plainText (s : String) : Bool :=
  s.data.all (fun c => !(c = '<' || outsideModel c))

/-! ## Shape of the effect lists -/

theorem phase1_eq_controller (form : Form) (net : FetchResult) :
    phase1_onsubmit form net = controller phase1Config "download-phase1" form net := rfl

theorem phase2_eq_controller (form : Form) (net : FetchResult) :
    phase2_onsubmit form net = controller phase2Config "download-phase2" form net := rfl

theorem controller_success (cfg : Config) (dl : String) (form : Form) (net : FetchResult)
    (h : isSuccess net = true) :
    controller cfg dl form net =
      ⟨[.preventDefault, .setInnerHTML "banner" "", .setDisabled "submit-btn" true,
        .setDisplay "spinner" "inline-block", .setDisplay dl "none",
        .fetch ⟨baseUrl ++ cfg.submitEndpoint, "POST", FormData.ofForm form⟩, .await, .await,
        .setInnerHTML "banner" (bannerMarkup cfg.successMessage "success"),
        .setDisplay dl "block", .setHref dl (baseUrl ++ cfg.downloadEndpoint),
        .setDisplay "summary-banner" "block", .setTextContent "summary-text" cfg.summaryText,
        .setDisabled "submit-btn" false, .setDisplay "spinner" "none"], .normal ()⟩ := by
  cases net with
  | rejected e => simp [isSuccess] at h
  | resolved res =>
    obtain ⟨status, body⟩ := res
    cases body with
    | error e => simp [isSuccess] at h
    | ok data =>
      simp [isSuccess] at h
      simp [controller, bind, Js.bind, emit, tryCatch, fetch, Response.json, clearBanner,
        showBanner, h]

theorem controller_rejected (cfg : Config) (dl : String) (form : Form) (e : JsError) :
    controller cfg dl form (.rejected e) =
      ⟨failureEffects cfg dl form [] e.message, .normal ()⟩ := by
  simp [controller, bind, Js.bind, emit, tryCatch, fetch, clearBanner, showBanner,
    failureEffects]

theorem controller_unparseable (cfg : Config) (dl : String) (form : Form) (status : Nat)
    (e : JsError) :
    controller cfg dl form (.resolved ⟨status, .error e⟩) =
      ⟨failureEffects cfg dl form [.await] e.message, .normal ()⟩ := by
  simp [controller, bind, Js.bind, emit, tryCatch, fetch, Response.json, clearBanner,
    showBanner, failureEffects]

theorem controller_error_field (cfg : Config) (dl : String) (form : Form) (status : Nat)
    (fields : JsonFields) (e : String) (hs : (Response.mk status (.ok (.obj fields))).ok = false)
    (he : fields.get? "error" = some (.str e)) :
    controller cfg dl form (.resolved ⟨status, .ok (.obj fields)⟩) =
      ⟨failureEffects cfg dl form [.await] e, .normal ()⟩ := by
  have hs2 : (Response.mk status (.ok (.obj fields))).ok = false := hs
  simp [controller, bind, Js.bind, emit, tryCatch, fetch, Response.json, clearBanner,
    showBanner, failureEffects, hs2, Json.error, he, pure, concat, JsValue.toStr, Json.toStr]

theorem Json.error_cases (data : Json) :
    (∃ v, data.error = ⟨[], .normal v⟩) ∨ (∃ e, data.error = ⟨[], .throw e⟩) := by
  cases data with
  | null => exact Or.inr ⟨_, rfl⟩
  | obj fields =>
    cases hf : fields.get? "error" with
    | none => exact Or.inl ⟨.undefined, by simp [Json.error, hf, pure]⟩
    | some v => exact Or.inl ⟨.json v, by simp [Json.error, hf, pure]⟩
  | bool b => exact Or.inl ⟨.undefined, rfl⟩
  | num t => exact Or.inl ⟨.undefined, rfl⟩
  | str t => exact Or.inl ⟨.undefined, rfl⟩
  | arr t => exact Or.inl ⟨.undefined, rfl⟩

theorem concat_cases (pre : String) (v : JsValue) :
    (∃ s, concat pre v = ⟨[], .normal (pre ++ s)⟩) ∨ (∃ e, concat pre v = ⟨[], .throw e⟩) := by
  cases hv : v.toStr with
  | normal s => exact Or.inl ⟨s, by simp [concat, hv, pure]⟩
  | throw e => exact Or.inr ⟨e, by simp [concat, hv, throwJs]⟩

theorem controller_failure (cfg : Config) (dl : String) (form : Form) (net : FetchResult)
    (h : isSuccess net = false) :
    ∃ aw m, (aw = [] ∨ aw = [Stmt.await]) ∧
      controller cfg dl form net = ⟨failureEffects cfg dl form aw m, .normal ()⟩ := by
  cases net with
  | rejected e => exact ⟨[], e.message, Or.inl rfl, controller_rejected cfg dl form e⟩
  | resolved res =>
    obtain ⟨status, body⟩ := res
    cases body with
    | error e =>
      exact ⟨[.await], e.message, Or.inr rfl, controller_unparseable cfg dl form status e⟩
    | ok data =>
      have hok : (Response.mk status (.ok data)).ok = false := by
        simpa [isSuccess] using h
      refine ⟨[.await], ?_⟩
      rcases Json.error_cases data with ⟨v, hv⟩ | ⟨e, he⟩
      · rcases concat_cases "Error: " v with ⟨s, hs⟩ | ⟨e, he⟩
        · refine ⟨s, Or.inr rfl, ?_⟩
          simp [controller, bind, Js.bind, emit, tryCatch, fetch, Response.json, clearBanner,
            showBanner, failureEffects, hok, hv, hs]
        · refine ⟨e.message, Or.inr rfl, ?_⟩
          simp [controller, bind, Js.bind, emit, tryCatch, fetch, Response.json, clearBanner,
            showBanner, failureEffects, hok, hv, he]
      · refine ⟨e.message, Or.inr rfl, ?_⟩
        simp [controller, bind, Js.bind, emit, tryCatch, fetch, Response.json, clearBanner,
          showBanner, failureEffects, hok, he]

theorem isSuccess_of_status (status : Nat) (data : Json) (hs : 200 ≤ status ∧ status ≤ 299) :
    isSuccess (.resolved ⟨status, .ok data⟩) = true := by
  simp [isSuccess, Response.ok, hs.1, hs.2]

theorem ok_false_of_status (status : Nat) (body : Except JsError Json)
    (hs : ¬ (200 ≤ status ∧ status ≤ 299)) : (Response.mk status body).ok = false := by
  simp only [Response.ok, Bool.and_eq_false_iff, decide_eq_false_iff_not]
  by_cases h : 200 ≤ status
  · exact Or.inr (fun h2 => hs ⟨h, h2⟩)
  · exact Or.inl h

/-! ## Frame lemmas -/

theorem run_append (a b : List Stmt) (w : World) : run (a ++ b) w = run b (run a w) := by
  induction a generalizing w with
  | nil => rfl
  | cons s rest ih => simpa [run] using ih (exec s w)

theorem exec_display_frame (s : Stmt) (w : World) (id : String)
    (h : s.sets ≠ some (id, .display)) : ((exec s w).dom id).display = (w.dom id).display := by
  cases s <;> simp [exec, World.setElem, Stmt.sets] at h ⊢ <;> split <;> first | rfl | skip
  rename_i hid
  exact absurd hid.symm h

theorem run_display_frame (l : List Stmt) (w : World) (id : String)
    (h : ∀ s ∈ l, s.sets ≠ some (id, .display)) :
    ((run l w).dom id).display = (w.dom id).display := by
  induction l generalizing w with
  | nil => rfl
  | cons s rest ih =>
    rw [run, ih (exec s w) (fun t ht => h t (List.mem_cons_of_mem _ ht)),
      exec_display_frame s w id (h s (List.mem_cons_self _ _))]

theorem exec_href_frame (s : Stmt) (w : World) (id : String)
    (h : s.sets ≠ some (id, .href)) : ((exec s w).dom id).href = (w.dom id).href := by
  cases s <;> simp [exec, World.setElem, Stmt.sets] at h ⊢ <;> split <;> first | rfl | skip
  rename_i hid
  exact absurd hid.symm h

theorem run_href_frame (l : List Stmt) (w : World) (id : String)
    (h : ∀ s ∈ l, s.sets ≠ some (id, .href)) :
    ((run l w).dom id).href = (w.dom id).href := by
  induction l generalizing w with
  | nil => rfl
  | cons s rest ih =>
    rw [run, ih (exec s w) (fun t ht => h t (List.mem_cons_of_mem _ ht)),
      exec_href_frame s w id (h s (List.mem_cons_self _ _))]

theorem exec_disabled_frame (s : Stmt) (w : World) (id : String)
    (h : s.sets ≠ some (id, .disabled)) :
    ((exec s w).dom id).disabled = (w.dom id).disabled := by
  cases s <;> simp [exec, World.setElem, Stmt.sets] at h ⊢ <;> split <;> first | rfl | skip
  rename_i hid
  exact absurd hid.symm h

theorem run_disabled_frame (l : List Stmt) (w : World) (id : String)
    (h : ∀ s ∈ l, s.sets ≠ some (id, .disabled)) :
    ((run l w).dom id).disabled = (w.dom id).disabled := by
  induction l generalizing w with
  | nil => rfl
  | cons s rest ih =>
    rw [run, ih (exec s w) (fun t ht => h t (List.mem_cons_of_mem _ ht)),
      exec_disabled_frame s w id (h s (List.mem_cons_self _ _))]

/-! ## The parser on the banner markup -/

theorem feed_append (p : Parser) (a b : List Char) :
    feed p (a ++ b) = (feed p a).bind (fun q => feed q b) := by
  induction a generalizing p with
  | nil => rfl
  | cons c cs ih =>
    simp only [List.cons_append, feed]
    cases step p c with
    | none => rfl
    | some q => exact ih q

theorem push_append_mk (t : String) (c : Char) (cs : List Char) :
    t.push c ++ String.mk cs = t ++ String.mk (c :: cs) := by
  apply String.ext
  simp [String.data_append, String.data_push]

/-- In the data state, plain characters extend the text node that ends the
current node. -/
theorem feed_plain (cs : List Char)
    (h : cs.all (fun c => !(c = '<' || outsideModel c)) = true)
    (tag : String) (attrs : List (String × String)) (t : String) (rest : List Node)
    (below : List OpenElement) (root : List Node) :
    feed ⟨.data, ⟨⟨tag, attrs, .text t :: rest⟩ :: below, root⟩⟩ cs
      = some ⟨.data, ⟨⟨tag, attrs, .text (t ++ String.mk cs) :: rest⟩ :: below, root⟩⟩ := by
  induction cs generalizing t with
  | nil =>
    have : t ++ String.mk [] = t := by
      apply String.ext
      simp [String.data_append]
    simp [feed, this]
  | cons c cs ih =>
    simp only [List.all_cons, Bool.and_eq_true, Bool.not_eq_true', Bool.or_eq_false_iff,
      decide_eq_false_iff_not] at h
    obtain ⟨⟨hlt, hout⟩, hcs⟩ := h
    have hstep : step ⟨.data, ⟨⟨tag, attrs, .text t :: rest⟩ :: below, root⟩⟩ c
        = some ⟨.data, ⟨⟨tag, attrs, .text (t.push c) :: rest⟩ :: below, root⟩⟩ := by
      simp [step, hout, hlt, Tree.insertCharacter, appendCharacter]
    simp only [feed, hstep]
    rw [ih hcs, push_append_mk]

theorem feed_banner_open :
    feed ⟨.data, ⟨[], []⟩⟩ "<div class='banner banner-error'>Error: ".data
      = some ⟨.data, ⟨[⟨"div", [("class", "banner banner-error")], [.text "Error: "]⟩], []⟩⟩ := by
  rfl

theorem feed_div_close (attrs : List (String × String)) (rev : List Node) (root : List Node) :
    feed ⟨.data, ⟨[⟨"div", attrs, rev⟩], root⟩⟩ "</div>".data
      = some ⟨.data, ⟨[], .element "div" attrs rev.reverse :: root⟩⟩ := by
  rfl

theorem parseFragment_error_banner (m : String) (h : plainText m = true) :
    parseFragment (bannerMarkup ("Error: " ++ m) "error")
      = some [.element "div" [("class", "banner banner-error")] [.text ("Error: " ++ m)]] := by
  have hdata : (bannerMarkup ("Error: " ++ m) "error").data
      = "<div class='banner banner-error'>Error: ".data ++ (m.data ++ "</div>".data) := by
    simp only [bannerMarkup, String.data_append]
    simp
  unfold parseFragment
  rw [hdata, feed_append, feed_banner_open]
  simp only [Option.bind]
  rw [feed_append, feed_plain m.data h]
  simp only [Option.bind]
  rw [feed_div_close]
  rfl

/-! ## Banner markup and final states -/

theorem bannerMarkup_error (m : String) :
    bannerMarkup ("Error: " ++ m) "error"
      = "<div class='banner banner-error'>Error: " ++ m ++ "</div>" := by
  simp only [bannerMarkup]
  rw [← String.append_assoc _ "Error: " m]
  rfl

theorem controller_transport (cfg : Config) (dl : String) (form : Form) (net : FetchResult)
    (e : JsError)
    (h : net = .rejected e ∨ ∃ status, net = .resolved ⟨status, .error e⟩) :
    ∃ aw, (aw = [] ∨ aw = [Stmt.await]) ∧
      controller cfg dl form net = ⟨failureEffects cfg dl form aw e.message, .normal ()⟩ := by
  rcases h with h | ⟨status, h⟩
  · exact ⟨[], Or.inl rfl, h ▸ controller_rejected cfg dl form e⟩
  · exact ⟨[.await], Or.inr rfl, h ▸ controller_unparseable cfg dl form status e⟩

theorem failure_state (cfg : Config) (dl : String) (form : Form) (aw : List Stmt) (m : String)
    (w : World) (haw : aw = [] ∨ aw = [Stmt.await])
    (hdl : dl = "download-phase1" ∨ dl = "download-phase2") :
    ((run (failureEffects cfg dl form aw m) w).dom "banner").innerHTML
      = "<div class='banner banner-error'>Error: " ++ m ++ "</div>" ∧
    ((run (failureEffects cfg dl form aw m) w).dom dl).display = "none" ∧
    ((run (failureEffects cfg dl form aw m) w).dom "submit-btn").disabled = false ∧
    ((run (failureEffects cfg dl form aw m) w).dom "spinner").display = "none" ∧
    (run (failureEffects cfg dl form aw m) w).dom "summary-banner" = w.dom "summary-banner" ∧
    (run (failureEffects cfg dl form aw m) w).dom "summary-text" = w.dom "summary-text" := by
  rw [← bannerMarkup_error]
  rcases haw with rfl | rfl <;> rcases hdl with rfl | rfl <;>
    simp [failureEffects, run, exec, World.setElem]

theorem failure_content (cfg : Config) (dl : String) (form : Form) (aw : List Stmt)
    (m : String) (w : World) (haw : aw = [] ∨ aw = [Stmt.await])
    (hdl : dl = "download-phase1" ∨ dl = "download-phase2") :
    ((run (failureEffects cfg dl form aw m) w).dom "banner").content
      = parseFragment ("<div class='banner banner-error'>Error: " ++ m ++ "</div>") := by
  rw [← bannerMarkup_error]
  rcases haw with rfl | rfl <;> rcases hdl with rfl | rfl <;>
    simp [failureEffects, run, exec, World.setElem]

theorem error_banner_content (m : String) (h : plainText m = true) :
    parseFragment ("<div class='banner banner-error'>Error: " ++ m ++ "</div>")
      = some [.element "div" [("class", "banner banner-error")] [.text ("Error: " ++ m)]] := by
  rw [← bannerMarkup_error]
  exact parseFragment_error_banner m h

/-! ## Suspension states and the disabled interval -/

/-- The statements a phase handler runs before it suspends on the network call. -/
theorem controller_statesAtAwait (cfg : Config) (dl : String) (form : Form)
    (net : FetchResult) (w : World) :
    ∃ n, statesAtAwait (controller cfg dl form net).effects w =
      List.replicate (n + 1)
        (run [.preventDefault, .setInnerHTML "banner" "", .setDisabled "submit-btn" true,
          .setDisplay "spinner" "inline-block", .setDisplay dl "none",
          .fetch ⟨baseUrl ++ cfg.submitEndpoint, "POST", FormData.ofForm form⟩] w) := by
  cases hsucc : isSuccess net with
  | true =>
    rw [controller_success cfg dl form net hsucc]
    exact ⟨1, by simp [statesAtAwait, run, List.replicate]⟩
  | false =>
    obtain ⟨aw, m, haw, h⟩ := controller_failure cfg dl form net hsucc
    rw [h]
    rcases haw with rfl | rfl
    · exact ⟨0, by simp [failureEffects, statesAtAwait, run, List.replicate]⟩
    · exact ⟨1, by simp [failureEffects, statesAtAwait, run, List.replicate]⟩

theorem suspended_state (cfg : Config) (dl : String) (form : Form) (w : World)
    (hdl : dl = "download-phase1" ∨ dl = "download-phase2") :
    ((run [.preventDefault, .setInnerHTML "banner" "", .setDisabled "submit-btn" true,
        .setDisplay "spinner" "inline-block", .setDisplay dl "none",
        .fetch ⟨baseUrl ++ cfg.submitEndpoint, "POST", FormData.ofForm form⟩] w).dom
      "banner").innerHTML = "" ∧
    ((run [.preventDefault, .setInnerHTML "banner" "", .setDisabled "submit-btn" true,
        .setDisplay "spinner" "inline-block", .setDisplay dl "none",
        .fetch ⟨baseUrl ++ cfg.submitEndpoint, "POST", FormData.ofForm form⟩] w).dom
      "submit-btn").disabled = true ∧
    ((run [.preventDefault, .setInnerHTML "banner" "", .setDisabled "submit-btn" true,
        .setDisplay "spinner" "inline-block", .setDisplay dl "none",
        .fetch ⟨baseUrl ++ cfg.submitEndpoint, "POST", FormData.ofForm form⟩] w).dom
      "spinner").display = "inline-block" ∧
    ((run [.preventDefault, .setInnerHTML "banner" "", .setDisabled "submit-btn" true,
        .setDisplay "spinner" "inline-block", .setDisplay dl "none",
        .fetch ⟨baseUrl ++ cfg.submitEndpoint, "POST", FormData.ofForm form⟩] w).dom
      dl).display = "none" ∧
    (run [.preventDefault, .setInnerHTML "banner" "", .setDisabled "submit-btn" true,
        .setDisplay "spinner" "inline-block", .setDisplay dl "none",
        .fetch ⟨baseUrl ++ cfg.submitEndpoint, "POST", FormData.ofForm form⟩] w).requests
      = w.requests ++ [⟨baseUrl ++ cfg.submitEndpoint, "POST", FormData.ofForm form⟩] ∧
    (run [.preventDefault, .setInnerHTML "banner" "", .setDisabled "submit-btn" true,
        .setDisplay "spinner" "inline-block", .setDisplay dl "none",
        .fetch ⟨baseUrl ++ cfg.submitEndpoint, "POST", FormData.ofForm form⟩] w).defaultPrevented
      = true := by
  rcases hdl with rfl | rfl <;> simp [run, exec, World.setElem]

theorem disabled_between (mid : List Stmt) (w : World)
    (hmid : ∀ s ∈ mid, s.sets ≠ some ("submit-btn", .disabled))
    (pre post : List Stmt) (h : mid = pre ++ post) :
    ((run ([.preventDefault, .setInnerHTML "banner" "", .setDisabled "submit-btn" true] ++ pre)
      w).dom "submit-btn").disabled = true := by
  rw [run_append, run_disabled_frame pre _ "submit-btn"
    (fun t ht => hmid t (h ▸ List.mem_append_left post ht))]
  simp [run, exec, World.setElem]

/-- Every run of a phase handler has the shape: three opening statements, a
middle part that never writes the disabled state of the submit control, and the
two closing statements. -/
theorem controller_shape (cfg : Config) (dl : String) (form : Form) (net : FetchResult) :
    ∃ mid, (controller cfg dl form net) =
        ⟨[.preventDefault, .setInnerHTML "banner" "", .setDisabled "submit-btn" true] ++ mid ++
          [.setDisabled "submit-btn" false, .setDisplay "spinner" "none"], .normal ()⟩ ∧
      ∀ s ∈ mid, s.sets ≠ some ("submit-btn", .disabled) := by
  cases hsucc : isSuccess net with
  | true =>
    rw [controller_success cfg dl form net hsucc]
    refine ⟨[.setDisplay "spinner" "inline-block", .setDisplay dl "none",
        .fetch ⟨baseUrl ++ cfg.submitEndpoint, "POST", FormData.ofForm form⟩, .await, .await,
        .setInnerHTML "banner" (bannerMarkup cfg.successMessage "success"),
        .setDisplay dl "block", .setHref dl (baseUrl ++ cfg.downloadEndpoint),
        .setDisplay "summary-banner" "block",
        .setTextContent "summary-text" cfg.summaryText], rfl, ?_⟩
    simp [Stmt.sets]
  | false =>
    obtain ⟨aw, m, haw, h⟩ := controller_failure cfg dl form net hsucc
    rw [h]
    refine ⟨[.setDisplay "spinner" "inline-block", .setDisplay dl "none",
        .fetch ⟨baseUrl ++ cfg.submitEndpoint, "POST", FormData.ofForm form⟩, .await] ++ aw ++
        [.setInnerHTML "banner" (bannerMarkup ("Error: " ++ m) "error")], ?_, ?_⟩
    · simp [failureEffects]
    · rcases haw with rfl | rfl <;> simp [Stmt.sets]

theorem final_controls (mid : List Stmt) (w : World) :
    ((run ([.preventDefault, .setInnerHTML "banner" "", .setDisabled "submit-btn" true] ++ mid ++
      [.setDisabled "submit-btn" false, .setDisplay "spinner" "none"]) w).dom
        "submit-btn").disabled = false ∧
    ((run ([.preventDefault, .setInnerHTML "banner" "", .setDisabled "submit-btn" true] ++ mid ++
      [.setDisabled "submit-btn" false, .setDisplay "spinner" "none"]) w).dom
        "spinner").display = "none" := by
  rw [run_append]
  simp [run, exec, World.setElem]

theorem controller_requests (cfg : Config) (dl : String) (form : Form) (net : FetchResult)
    (w : World) :
    (run (controller cfg dl form net).effects w).requests
      = w.requests ++ [⟨baseUrl ++ cfg.submitEndpoint, "POST", FormData.ofForm form⟩] := by
  cases hsucc : isSuccess net with
  | true =>
    rw [controller_success cfg dl form net hsucc]
    simp [run, exec, World.setElem]
  | false =>
    obtain ⟨aw, m, haw, h⟩ := controller_failure cfg dl form net hsucc
    rw [h]
    rcases haw with rfl | rfl <;> simp [failureEffects, run, exec, World.setElem]

theorem controller_urls (cfg : Config) (dl : String) (form : Form) (net : FetchResult) :
    ∀ s ∈ (controller cfg dl form net).effects, ∀ url ∈ s.urls,
      url = baseUrl ++ cfg.submitEndpoint ∨ url = baseUrl ++ cfg.downloadEndpoint := by
  cases hsucc : isSuccess net with
  | true =>
    rw [controller_success cfg dl form net hsucc]
    simp [Stmt.urls]
  | false =>
    obtain ⟨aw, m, haw, h⟩ := controller_failure cfg dl form net hsucc
    rw [h]
    rcases haw with rfl | rfl <;> simp [failureEffects, Stmt.urls]

theorem controller_success_href (cfg : Config) (dl : String) (form : Form)
    (net : FetchResult) (w : World) (h : isSuccess net = true) :
    ((run (controller cfg dl form net).effects w).dom dl).href
      = baseUrl ++ cfg.downloadEndpoint := by
  rw [controller_success cfg dl form net h]
  have hsplit :
      [Stmt.preventDefault, .setInnerHTML "banner" "", .setDisabled "submit-btn" true,
        .setDisplay "spinner" "inline-block", .setDisplay dl "none",
        .fetch ⟨baseUrl ++ cfg.submitEndpoint, "POST", FormData.ofForm form⟩, .await, .await,
        .setInnerHTML "banner" (bannerMarkup cfg.successMessage "success"),
        .setDisplay dl "block", .setHref dl (baseUrl ++ cfg.downloadEndpoint),
        .setDisplay "summary-banner" "block", .setTextContent "summary-text" cfg.summaryText,
        .setDisabled "submit-btn" false, .setDisplay "spinner" "none"]
      = [Stmt.preventDefault, .setInnerHTML "banner" "", .setDisabled "submit-btn" true,
        .setDisplay "spinner" "inline-block", .setDisplay dl "none",
        .fetch ⟨baseUrl ++ cfg.submitEndpoint, "POST", FormData.ofForm form⟩, .await, .await,
        .setInnerHTML "banner" (bannerMarkup cfg.successMessage "success"),
        .setDisplay dl "block", .setHref dl (baseUrl ++ cfg.downloadEndpoint)] ++
        [.setDisplay "summary-banner" "block", .setTextContent "summary-text" cfg.summaryText,
        .setDisabled "submit-btn" false, .setDisplay "spinner" "none"] := rfl
  rw [hsplit, run_append, run_href_frame _ _ dl (by simp [Stmt.sets])]
  simp [run, exec, World.setElem]

theorem phase1_submit_url : baseUrl ++ phase1Config.submitEndpoint
    = "http://localhost:5000/upload" := by decide

theorem phase1_download_url : baseUrl ++ phase1Config.downloadEndpoint
    = "http://localhost:5000/download/phase1" := by decide

theorem phase2_submit_url : baseUrl ++ phase2Config.submitEndpoint
    = "http://localhost:5000/allocate" := by decide

theorem phase2_download_url : baseUrl ++ phase2Config.downloadEndpoint
    = "http://localhost:5000/download/phase2" := by decide

/-! ## The legacy handlers -/

theorem script_phase1_onsubmit_success (form : Form) (status : Nat) (data : Json)
    (hs : 200 ≤ status ∧ status ≤ 299) :
    script_phase1_onsubmit form (.resolved ⟨status, .ok data⟩) =
      ⟨[.preventDefault, .fetch ⟨"http://localhost:5000/upload", "POST", FormData.ofForm form⟩,
        .await, .await,
        .alert "Allocation completed successfully! Click the download link below to get the result.",
        .setDisplay "download-link" "block",
        .setHref "download-link" "http://localhost:5000/download"], .normal ()⟩ := by
  have hok : (Response.mk status (.ok data)).ok = true := by
    simp [Response.ok, hs.1, hs.2]
  simp [script_phase1_onsubmit, bind, Js.bind, emit, tryCatch, fetch, Response.json, hok]

theorem script_phase1_onsubmit_rejected (form : Form) (e : JsError) :
    script_phase1_onsubmit form (.rejected e) =
      ⟨[.preventDefault, .fetch ⟨"http://localhost:5000/upload", "POST", FormData.ofForm form⟩,
        .await, .alert ("Error: " ++ e.message)], .normal ()⟩ := by
  simp [script_phase1_onsubmit, bind, Js.bind, emit, tryCatch, fetch]

theorem script_phase1_onsubmit_unparseable (form : Form) (status : Nat) (e : JsError) :
    script_phase1_onsubmit form (.resolved ⟨status, .error e⟩) =
      ⟨[.preventDefault, .fetch ⟨"http://localhost:5000/upload", "POST", FormData.ofForm form⟩,
        .await, .await, .alert ("Error: " ++ e.message)], .normal ()⟩ := by
  simp [script_phase1_onsubmit, bind, Js.bind, emit, tryCatch, fetch, Response.json]

theorem script_phase1_onsubmit_error_field (form : Form) (status : Nat) (fields : JsonFields)
    (e : String) (hs : ¬ (200 ≤ status ∧ status ≤ 299))
    (he : fields.get? "error" = some (.str e)) :
    script_phase1_onsubmit form (.resolved ⟨status, .ok (.obj fields)⟩) =
      ⟨[.preventDefault, .fetch ⟨"http://localhost:5000/upload", "POST", FormData.ofForm form⟩,
        .await, .await, .alert ("Error: " ++ e)], .normal ()⟩ := by
  have hok := ok_false_of_status status (.ok (.obj fields)) hs
  simp [script_phase1_onsubmit, bind, Js.bind, emit, tryCatch, fetch, Response.json, hok,
    Json.error, he, pure, concat, JsValue.toStr, Json.toStr]

theorem script_phase2_onsubmit_success (form : Form) (status : Nat) (data : Json)
    (hs : 200 ≤ status ∧ status ≤ 299) :
    script_phase2_onsubmit form (.resolved ⟨status, .ok data⟩) =
      ⟨[.preventDefault, .fetch ⟨"http://localhost:5000/allocate", "POST", FormData.ofForm form⟩,
        .await, .await,
        .alert "Faculty allocation completed! Click the download link below to get the result.",
        .setDisplay "download-link" "block",
        .setHref "download-link" "http://localhost:5000/download"], .normal ()⟩ := by
  have hok : (Response.mk status (.ok data)).ok = true := by
    simp [Response.ok, hs.1, hs.2]
  simp [script_phase2_onsubmit, bind, Js.bind, emit, tryCatch, fetch, Response.json, hok]

theorem script_phase2_onsubmit_rejected (form : Form) (e : JsError) :
    script_phase2_onsubmit form (.rejected e) =
      ⟨[.preventDefault, .fetch ⟨"http://localhost:5000/allocate", "POST", FormData.ofForm form⟩,
        .await, .alert ("Error: " ++ e.message)], .normal ()⟩ := by
  simp [script_phase2_onsubmit, bind, Js.bind, emit, tryCatch, fetch]

theorem script_phase2_onsubmit_unparseable (form : Form) (status : Nat) (e : JsError) :
    script_phase2_onsubmit form (.resolved ⟨status, .error e⟩) =
      ⟨[.preventDefault, .fetch ⟨"http://localhost:5000/allocate", "POST", FormData.ofForm form⟩,
        .await, .await, .alert ("Error: " ++ e.message)], .normal ()⟩ := by
  simp [script_phase2_onsubmit, bind, Js.bind, emit, tryCatch, fetch, Response.json]

theorem script_phase2_onsubmit_error_field (form : Form) (status : Nat) (fields : JsonFields)
    (e : String) (hs : ¬ (200 ≤ status ∧ status ≤ 299))
    (he : fields.get? "error" = some (.str e)) :
    script_phase2_onsubmit form (.resolved ⟨status, .ok (.obj fields)⟩) =
      ⟨[.preventDefault, .fetch ⟨"http://localhost:5000/allocate", "POST", FormData.ofForm form⟩,
        .await, .await, .alert ("Error: " ++ e)], .normal ()⟩ := by
  have hok := ok_false_of_status status (.ok (.obj fields)) hs
  simp [script_phase2_onsubmit, bind, Js.bind, emit, tryCatch, fetch, Response.json, hok,
    Json.error, he, pure, concat, JsValue.toStr, Json.toStr]

theorem failure_never_hides_summary (cfg : Config) (dl : String) (form : Form)
    (net : FetchResult) (hdl : dl = "download-phase1" ∨ dl = "download-phase2") :
    ∀ s ∈ (controller cfg dl form net).effects, ∀ v,
      s = .setDisplay "summary-banner" v → v = "block" := by
  cases hsucc : isSuccess net with
  | true =>
    rw [controller_success cfg dl form net hsucc]
    rcases hdl with rfl | rfl <;> simp
  | false =>
    obtain ⟨aw, m, haw, h⟩ := controller_failure cfg dl form net hsucc
    rw [h]
    rcases haw with rfl | rfl <;> rcases hdl with rfl | rfl <;> simp [failureEffects]

theorem success_then_failure (cfg : Config) (dl : String) (form1 form2 : Form)
    (net1 net2 : FetchResult) (w : World)
    (hdl : dl = "download-phase1" ∨ dl = "download-phase2")
    (h1 : isSuccess net1 = true) (h2 : isSuccess net2 = false) :
    (∃ m, ((run (controller cfg dl form2 net2).effects
        (run (controller cfg dl form1 net1).effects w)).dom "banner").innerHTML
          = "<div class='banner banner-error'>Error: " ++ m ++ "</div>") ∧
    ((run (controller cfg dl form2 net2).effects
        (run (controller cfg dl form1 net1).effects w)).dom dl).display = "none" ∧
    ((run (controller cfg dl form2 net2).effects
        (run (controller cfg dl form1 net1).effects w)).dom "summary-banner").display
          = "block" ∧
    ((run (controller cfg dl form2 net2).effects
        (run (controller cfg dl form1 net1).effects w)).dom "summary-text").textContent
          = cfg.summaryText := by
  obtain ⟨aw, m, haw, h⟩ := controller_failure cfg dl form2 net2 h2
  have hf := failure_state cfg dl form2 aw m (run (controller cfg dl form1 net1).effects w)
    haw hdl
  simp only [h]
  refine ⟨⟨m, hf.1⟩, hf.2.1, ?_, ?_⟩
  · rw [hf.2.2.2.2.1, controller_success cfg dl form1 net1 h1]
    rcases hdl with rfl | rfl <;> simp [run, exec, World.setElem]
  · rw [hf.2.2.2.2.2, controller_success cfg dl form1 net1 h1]
    rcases hdl with rfl | rfl <;> simp [run, exec, World.setElem]

/-! ## Theorems -/

/-- C1. Phase-1 success path: for every initial page, every form, every status
in 200..299 and every JSON body, the handler completes; the banner then holds
the success banner with text `Allocation completed successfully!`, the element
`download-phase1` is displayed as `block` with link target
`http://localhost:5000/download/phase1`, the summary banner is displayed and
the summary text is `120 students allocated to 5 rooms.`; no other element
receives a link target, and besides `download-phase1`, `summary-banner` and
the spinner no element has its display changed. -/
theorem phase1_success (w : World) (form : Form) (status : Nat) (data : Json)
    (hs : 200 ≤ status ∧ status ≤ 299) :
    (phase1_onsubmit form (.resolved ⟨status, .ok data⟩)).completion = .normal () ∧
    ((run (phase1_onsubmit form (.resolved ⟨status, .ok data⟩)).effects w).dom "banner").innerHTML
      = "<div class='banner banner-success'>Allocation completed successfully!</div>" ∧
    ((run (phase1_onsubmit form (.resolved ⟨status, .ok data⟩)).effects w).dom
      "download-phase1").display = "block" ∧
    ((run (phase1_onsubmit form (.resolved ⟨status, .ok data⟩)).effects w).dom
      "download-phase1").href = "http://localhost:5000/download/phase1" ∧
    ((run (phase1_onsubmit form (.resolved ⟨status, .ok data⟩)).effects w).dom
      "summary-banner").display = "block" ∧
    ((run (phase1_onsubmit form (.resolved ⟨status, .ok data⟩)).effects w).dom
      "summary-text").textContent = "120 students allocated to 5 rooms." ∧
    (∀ id, id ≠ "download-phase1" →
      ((run (phase1_onsubmit form (.resolved ⟨status, .ok data⟩)).effects w).dom id).href
        = (w.dom id).href) ∧
    (∀ id, id ≠ "download-phase1" → id ≠ "summary-banner" → id ≠ "spinner" →
      ((run (phase1_onsubmit form (.resolved ⟨status, .ok data⟩)).effects w).dom id).display
        = (w.dom id).display) := by
  rw [phase1_eq_controller, controller_success _ _ _ _ (isSuccess_of_status status data hs)]
  refine ⟨rfl, ?_, ?_, ?_, ?_, ?_, ?_, ?_⟩
  · simp [run, exec, World.setElem, bannerMarkup, phase1Config]
  · simp [run, exec, World.setElem]
  · simp [run, exec, World.setElem, phase1Config, baseUrl]
  · simp [run, exec, World.setElem]
  · simp [run, exec, World.setElem, phase1Config]
  · intro id h
    apply run_href_frame
    simp [Stmt.sets, Ne.symm h]
  · intro id h1 h2 h3
    apply run_display_frame
    simp [Stmt.sets, Ne.symm h1, Ne.symm h2, Ne.symm h3]

/-- Witness for C1: a two-field form and the response `{ }` with status 200 on a
freshly loaded page. -/
theorem phase1_success_witness :
    (200 ≤ 200 ∧ 200 ≤ 299) ∧
    (phase1_onsubmit Form.sample (.resolved ⟨200, .ok (.obj .nil)⟩)).completion = .normal () ∧
    ((run (phase1_onsubmit Form.sample (.resolved ⟨200, .ok (.obj .nil)⟩)).effects
      World.fresh).dom "banner").innerHTML
      = "<div class='banner banner-success'>Allocation completed successfully!</div>" ∧
    ((run (phase1_onsubmit Form.sample (.resolved ⟨200, .ok (.obj .nil)⟩)).effects
      World.fresh).dom "download-phase1").display = "block" ∧
    ((run (phase1_onsubmit Form.sample (.resolved ⟨200, .ok (.obj .nil)⟩)).effects
      World.fresh).dom "download-phase1").href = "http://localhost:5000/download/phase1" ∧
    ((run (phase1_onsubmit Form.sample (.resolved ⟨200, .ok (.obj .nil)⟩)).effects
      World.fresh).dom "summary-banner").display = "block" ∧
    ((run (phase1_onsubmit Form.sample (.resolved ⟨200, .ok (.obj .nil)⟩)).effects
      World.fresh).dom "summary-text").textContent = "120 students allocated to 5 rooms." ∧
    (∀ id, id ≠ "download-phase1" →
      ((run (phase1_onsubmit Form.sample (.resolved ⟨200, .ok (.obj .nil)⟩)).effects
        World.fresh).dom id).href = (World.fresh.dom id).href) ∧
    (∀ id, id ≠ "download-phase1" → id ≠ "summary-banner" → id ≠ "spinner" →
      ((run (phase1_onsubmit Form.sample (.resolved ⟨200, .ok (.obj .nil)⟩)).effects
        World.fresh).dom id).display = (World.fresh.dom id).display) :=
  ⟨by decide, phase1_success World.fresh Form.sample 200 (.obj .nil) (by decide)⟩

/-- C2, counterexample. Status 400 and a body whose `error` string closes the
banner element and opens another: on a freshly loaded page the banner of the
phase-1 and of the phase-2 page then holds an error banner reading `Error: x`
followed by a success banner, not an error banner whose message is `Error: `
followed by the `error` string. -/
theorem service_error_markup_example :
    (((run (phase1_onsubmit Form.sample (.resolved ⟨400, .ok (.obj (.cons "error"
        (.str "x</div><div class='banner banner-success'>Allocation completed successfully!") .nil))⟩)).effects
        World.fresh).dom "banner").content
      = some [.element "div" [("class", "banner banner-error")] [.text "Error: x"],
          .element "div" [("class", "banner banner-success")]
            [.text "Allocation completed successfully!"]] ∧
    ((run (phase1_onsubmit Form.sample (.resolved ⟨400, .ok (.obj (.cons "error"
        (.str "x</div><div class='banner banner-success'>Allocation completed successfully!") .nil))⟩)).effects
        World.fresh).dom "banner").content
      ≠ some [.element "div" [("class", "banner banner-error")]
          [.text ("Error: " ++ "x</div><div class='banner banner-success'>Allocation completed successfully!")]]) ∧
    (((run (phase2_onsubmit Form.sample (.resolved ⟨400, .ok (.obj (.cons "error"
        (.str "x</div><div class='banner banner-success'>Allocation completed successfully!") .nil))⟩)).effects
        World.fresh).dom "banner").content
      = some [.element "div" [("class", "banner banner-error")] [.text "Error: x"],
          .element "div" [("class", "banner banner-success")]
            [.text "Allocation completed successfully!"]] ∧
    ((run (phase2_onsubmit Form.sample (.resolved ⟨400, .ok (.obj (.cons "error"
        (.str "x</div><div class='banner banner-success'>Allocation completed successfully!") .nil))⟩)).effects
        World.fresh).dom "banner").content
      ≠ some [.element "div" [("class", "banner banner-error")]
          [.text ("Error: " ++ "x</div><div class='banner banner-success'>Allocation completed successfully!")]]) := by
  refine ⟨⟨rfl, ?_⟩, ⟨rfl, ?_⟩⟩
  · intro h
    have h2 := Eq.trans (Eq.symm h) (Eq.refl (some [Node.element "div"
      [("class", "banner banner-error")] [.text "Error: x"],
      .element "div" [("class", "banner banner-success")]
        [.text "Allocation completed successfully!"]]))
    simp at h2
  · intro h
    have h2 := Eq.trans (Eq.symm h) (Eq.refl (some [Node.element "div"
      [("class", "banner banner-error")] [.text "Error: x"],
      .element "div" [("class", "banner banner-success")]
        [.text "Allocation completed successfully!"]]))
    simp at h2

/-- C2, amended. Service-reported error: for every initial page (also one on
which the download link is displayed), every form and every response whose
status is outside 200..299 and whose JSON body is an object with a string
property `error`, the phase-1 and the phase-2 handler complete having assigned
to the banner the markup of an error banner with `Error: ` followed by that
string, interpolated as it is, so that the banner holds what that markup
parses to; when the string has no `<`, ampersand, NUL or carriage return the
banner holds exactly one banner, of error type, whose text is exactly `Error: `
followed by the string; the download link of the page is not displayed
(`none`). -/
theorem service_error_banner (w : World) (form : Form) (status : Nat) (fields : JsonFields)
    (e : String) (hs : ¬ (200 ≤ status ∧ status ≤ 299))
    (he : fields.get? "error" = some (.str e)) :
    ((phase1_onsubmit form (.resolved ⟨status, .ok (.obj fields)⟩)).completion = .normal () ∧
    ((run (phase1_onsubmit form (.resolved ⟨status, .ok (.obj fields)⟩)).effects w).dom
      "banner").innerHTML = "<div class='banner banner-error'>Error: " ++ e ++ "</div>" ∧
    ((run (phase1_onsubmit form (.resolved ⟨status, .ok (.obj fields)⟩)).effects w).dom
      "banner").content
        = parseFragment ("<div class='banner banner-error'>Error: " ++ e ++ "</div>") ∧
    (plainText e = true →
      ((run (phase1_onsubmit form (.resolved ⟨status, .ok (.obj fields)⟩)).effects w).dom
        "banner").content
          = some [.element "div" [("class", "banner banner-error")] [.text ("Error: " ++ e)]]) ∧
    ((run (phase1_onsubmit form (.resolved ⟨status, .ok (.obj fields)⟩)).effects w).dom
      "download-phase1").display = "none") ∧
    ((phase2_onsubmit form (.resolved ⟨status, .ok (.obj fields)⟩)).completion = .normal () ∧
    ((run (phase2_onsubmit form (.resolved ⟨status, .ok (.obj fields)⟩)).effects w).dom
      "banner").innerHTML = "<div class='banner banner-error'>Error: " ++ e ++ "</div>" ∧
    ((run (phase2_onsubmit form (.resolved ⟨status, .ok (.obj fields)⟩)).effects w).dom
      "banner").content
        = parseFragment ("<div class='banner banner-error'>Error: " ++ e ++ "</div>") ∧
    (plainText e = true →
      ((run (phase2_onsubmit form (.resolved ⟨status, .ok (.obj fields)⟩)).effects w).dom
        "banner").content
          = some [.element "div" [("class", "banner banner-error")] [.text ("Error: " ++ e)]]) ∧
    ((run (phase2_onsubmit form (.resolved ⟨status, .ok (.obj fields)⟩)).effects w).dom
      "download-phase2").display = "none") := by
  have hok := ok_false_of_status status (.ok (.obj fields)) hs
  rw [phase1_eq_controller, phase2_eq_controller,
    controller_error_field _ _ _ _ _ _ hok he, controller_error_field _ _ _ _ _ _ hok he]
  have h1 := failure_state phase1Config "download-phase1" form [.await] e w (Or.inr rfl)
    (Or.inl rfl)
  have h2 := failure_state phase2Config "download-phase2" form [.await] e w (Or.inr rfl)
    (Or.inr rfl)
  have c1 := failure_content phase1Config "download-phase1" form [.await] e w (Or.inr rfl)
    (Or.inl rfl)
  have c2 := failure_content phase2Config "download-phase2" form [.await] e w (Or.inr rfl)
    (Or.inr rfl)
  exact ⟨⟨rfl, h1.1, c1, fun hp => c1.trans (error_banner_content e hp), h1.2.1⟩,
    ⟨rfl, h2.1, c2, fun hp => c2.trans (error_banner_content e hp), h2.2.1⟩⟩

/-- Witness for C2: status 400 and body `{"error":"Invalid file"}` on a page
whose download link is displayed; the banner then holds the one error banner
`Error: Invalid file`. -/
theorem service_error_banner_witness :
    ¬ (200 ≤ 400 ∧ 400 ≤ 299) ∧
    JsonFields.get? (.cons "error" (.str "Invalid file") .nil) "error"
      = some (.str "Invalid file") ∧
    plainText "Invalid file" = true ∧
    ((phase1_onsubmit Form.sample (.resolved ⟨400, .ok (.obj (.cons "error" (.str "Invalid file")
      .nil))⟩)).completion = .normal () ∧
    ((run (phase1_onsubmit Form.sample (.resolved ⟨400, .ok (.obj (.cons "error" (.str "Invalid file")
      .nil))⟩)).effects World.afterSuccess).dom "banner").innerHTML
        = "<div class='banner banner-error'>Error: " ++ "Invalid file" ++ "</div>" ∧
    ((run (phase1_onsubmit Form.sample (.resolved ⟨400, .ok (.obj (.cons "error" (.str "Invalid file")
      .nil))⟩)).effects World.afterSuccess).dom "banner").content
        = some [.element "div" [("class", "banner banner-error")]
            [.text ("Error: " ++ "Invalid file")]] ∧
    ((run (phase1_onsubmit Form.sample (.resolved ⟨400, .ok (.obj (.cons "error" (.str "Invalid file")
      .nil))⟩)).effects World.afterSuccess).dom "download-phase1").display = "none") ∧
    ((phase2_onsubmit Form.sample (.resolved ⟨400, .ok (.obj (.cons "error" (.str "Invalid file")
      .nil))⟩)).completion = .normal () ∧
    ((run (phase2_onsubmit Form.sample (.resolved ⟨400, .ok (.obj (.cons "error" (.str "Invalid file")
      .nil))⟩)).effects World.afterSuccess).dom "banner").innerHTML
        = "<div class='banner banner-error'>Error: " ++ "Invalid file" ++ "</div>" ∧
    ((run (phase2_onsubmit Form.sample (.resolved ⟨400, .ok (.obj (.cons "error" (.str "Invalid file")
      .nil))⟩)).effects World.afterSuccess).dom "banner").content
        = some [.element "div" [("class", "banner banner-error")]
            [.text ("Error: " ++ "Invalid file")]] ∧
    ((run (phase2_onsubmit Form.sample (.resolved ⟨400, .ok (.obj (.cons "error" (.str "Invalid file")
      .nil))⟩)).effects World.afterSuccess).dom "download-phase2").display = "none") :=
  have h := service_error_banner World.afterSuccess Form.sample 400
    (.cons "error" (.str "Invalid file") .nil) "Invalid file" (by decide) rfl
  ⟨by decide, rfl, rfl, ⟨h.1.1, h.1.2.1, h.1.2.2.2.1 rfl, h.1.2.2.2.2⟩,
    ⟨h.2.1, h.2.2.1, h.2.2.2.2.1 rfl, h.2.2.2.2.2⟩⟩

/-- C3, counterexample. A response with status 500 whose body is the markup
`<div>oops</div>`: reading it as JSON fails with a message that quotes the
body, and on a freshly loaded page the banner of the phase-1 and of the phase-2
page then holds an error banner made of a text, a nested element and another
text, not an error banner whose message is `Error: ` followed by the failure
message. -/
theorem transport_error_markup_example :
    (((run (phase1_onsubmit Form.sample (.resolved ⟨500, .error
        ⟨"Unexpected token '<', \"<div>oops</div>\" is not valid JSON"⟩⟩)).effects World.fresh).dom "banner").content
      = some [.element "div" [("class", "banner banner-error")]
          [.text "Error: Unexpected token '<', \"", .element "div" [] [.text "oops"],
            .text "\" is not valid JSON"]] ∧
    ((run (phase1_onsubmit Form.sample (.resolved ⟨500, .error
        ⟨"Unexpected token '<', \"<div>oops</div>\" is not valid JSON"⟩⟩)).effects World.fresh).dom "banner").content
      ≠ some [.element "div" [("class", "banner banner-error")]
          [.text ("Error: " ++ "Unexpected token '<', \"<div>oops</div>\" is not valid JSON")]]) ∧
    (((run (phase2_onsubmit Form.sample (.resolved ⟨500, .error
        ⟨"Unexpected token '<', \"<div>oops</div>\" is not valid JSON"⟩⟩)).effects World.fresh).dom "banner").content
      = some [.element "div" [("class", "banner banner-error")]
          [.text "Error: Unexpected token '<', \"", .element "div" [] [.text "oops"],
            .text "\" is not valid JSON"]] ∧
    ((run (phase2_onsubmit Form.sample (.resolved ⟨500, .error
        ⟨"Unexpected token '<', \"<div>oops</div>\" is not valid JSON"⟩⟩)).effects World.fresh).dom "banner").content
      ≠ some [.element "div" [("class", "banner banner-error")]
          [.text ("Error: " ++ "Unexpected token '<', \"<div>oops</div>\" is not valid JSON")]]) := by
  refine ⟨⟨rfl, ?_⟩, ⟨rfl, ?_⟩⟩
  · intro h
    have h2 := Eq.trans (Eq.symm h) (Eq.refl (some [Node.element "div"
      [("class", "banner banner-error")]
      [.text "Error: Unexpected token '<', \"", .element "div" [] [.text "oops"],
        .text "\" is not valid JSON"]]))
    simp at h2
  · intro h
    have h2 := Eq.trans (Eq.symm h) (Eq.refl (some [Node.element "div"
      [("class", "banner banner-error")]
      [.text "Error: Unexpected token '<', \"", .element "div" [] [.text "oops"],
        .text "\" is not valid JSON"]]))
    simp at h2

/-- C3, amended. Transport error: for every initial page and form, if the
fetch is rejected with failure `e`, or a response arrives (with any status,
also 2xx) and reading its body as JSON fails with `e`, the phase-1 and the
phase-2 handler complete having assigned to the banner the markup of an error
banner with `Error: ` followed by the message of `e`, interpolated as it is, so
that the banner holds what that markup parses to; when the message has no `<`,
ampersand, NUL or carriage return the banner holds exactly one banner, of
error type, whose text is exactly `Error: ` followed by the message, hence no
success banner; the download link of the page is hidden. -/
theorem transport_error_banner (w : World) (form : Form) (net : FetchResult) (e : JsError)
    (h : net = .rejected e ∨ ∃ status, net = .resolved ⟨status, .error e⟩) :
    ((phase1_onsubmit form net).completion = .normal () ∧
    ((run (phase1_onsubmit form net).effects w).dom "banner").innerHTML
      = "<div class='banner banner-error'>Error: " ++ e.message ++ "</div>" ∧
    ((run (phase1_onsubmit form net).effects w).dom "banner").content
      = parseFragment ("<div class='banner banner-error'>Error: " ++ e.message ++ "</div>") ∧
    (plainText e.message = true →
      ((run (phase1_onsubmit form net).effects w).dom "banner").content
        = some [.element "div" [("class", "banner banner-error")]
            [.text ("Error: " ++ e.message)]]) ∧
    ((run (phase1_onsubmit form net).effects w).dom "download-phase1").display = "none") ∧
    ((phase2_onsubmit form net).completion = .normal () ∧
    ((run (phase2_onsubmit form net).effects w).dom "banner").innerHTML
      = "<div class='banner banner-error'>Error: " ++ e.message ++ "</div>" ∧
    ((run (phase2_onsubmit form net).effects w).dom "banner").content
      = parseFragment ("<div class='banner banner-error'>Error: " ++ e.message ++ "</div>") ∧
    (plainText e.message = true →
      ((run (phase2_onsubmit form net).effects w).dom "banner").content
        = some [.element "div" [("class", "banner banner-error")]
            [.text ("Error: " ++ e.message)]]) ∧
    ((run (phase2_onsubmit form net).effects w).dom "download-phase2").display = "none") := by
  obtain ⟨aw1, haw1, h1⟩ := controller_transport phase1Config "download-phase1" form net e h
  obtain ⟨aw2, haw2, h2⟩ := controller_transport phase2Config "download-phase2" form net e h
  rw [phase1_eq_controller, phase2_eq_controller, h1, h2]
  have s1 := failure_state phase1Config "download-phase1" form aw1 e.message w haw1
    (Or.inl rfl)
  have s2 := failure_state phase2Config "download-phase2" form aw2 e.message w haw2
    (Or.inr rfl)
  have c1 := failure_content phase1Config "download-phase1" form aw1 e.message w haw1
    (Or.inl rfl)
  have c2 := failure_content phase2Config "download-phase2" form aw2 e.message w haw2
    (Or.inr rfl)
  exact ⟨⟨rfl, s1.1, c1, fun hp => c1.trans (error_banner_content e.message hp), s1.2.1⟩,
    ⟨rfl, s2.1, c2, fun hp => c2.trans (error_banner_content e.message hp), s2.2.1⟩⟩

/-- Witness for C3: a response with status 200 and an empty body, on a page
showing the success banner of an earlier submission; the banner then holds the
one error banner `Error: Unexpected end of JSON input`. -/
theorem transport_error_banner_witness :
    ((FetchResult.resolved ⟨200, .error ⟨"Unexpected end of JSON input"⟩⟩) = .rejected ⟨"Unexpected end of JSON input"⟩ ∨
      ∃ status, (FetchResult.resolved ⟨200, .error ⟨"Unexpected end of JSON input"⟩⟩)
        = .resolved ⟨status, .error ⟨"Unexpected end of JSON input"⟩⟩) ∧
    plainText "Unexpected end of JSON input" = true ∧
    ((phase1_onsubmit Form.sample
      (FetchResult.resolved ⟨200, .error ⟨"Unexpected end of JSON input"⟩⟩)).completion = .normal () ∧
    ((run (phase1_onsubmit Form.sample
      (FetchResult.resolved ⟨200, .error ⟨"Unexpected end of JSON input"⟩⟩)).effects World.afterSuccess).dom "banner").innerHTML
        = "<div class='banner banner-error'>Error: " ++ "Unexpected end of JSON input"
          ++ "</div>" ∧
    ((run (phase1_onsubmit Form.sample
      (FetchResult.resolved ⟨200, .error ⟨"Unexpected end of JSON input"⟩⟩)).effects World.afterSuccess).dom "banner").content
        = some [.element "div" [("class", "banner banner-error")]
            [.text ("Error: " ++ "Unexpected end of JSON input")]] ∧
    ((run (phase1_onsubmit Form.sample
      (FetchResult.resolved ⟨200, .error ⟨"Unexpected end of JSON input"⟩⟩)).effects World.afterSuccess).dom "download-phase1").display = "none") ∧
    ((phase2_onsubmit Form.sample
      (FetchResult.resolved ⟨200, .error ⟨"Unexpected end of JSON input"⟩⟩)).completion = .normal () ∧
    ((run (phase2_onsubmit Form.sample
      (FetchResult.resolved ⟨200, .error ⟨"Unexpected end of JSON input"⟩⟩)).effects World.afterSuccess).dom "banner").innerHTML
        = "<div class='banner banner-error'>Error: " ++ "Unexpected end of JSON input"
          ++ "</div>" ∧
    ((run (phase2_onsubmit Form.sample
      (FetchResult.resolved ⟨200, .error ⟨"Unexpected end of JSON input"⟩⟩)).effects World.afterSuccess).dom "banner").content
        = some [.element "div" [("class", "banner banner-error")]
            [.text ("Error: " ++ "Unexpected end of JSON input")]] ∧
    ((run (phase2_onsubmit Form.sample
      (FetchResult.resolved ⟨200, .error ⟨"Unexpected end of JSON input"⟩⟩)).effects World.afterSuccess).dom "download-phase2").display = "none") :=
  have h := transport_error_banner World.afterSuccess Form.sample
    (.resolved ⟨200, .error ⟨"Unexpected end of JSON input"⟩⟩)
    ⟨"Unexpected end of JSON input"⟩ (Or.inr ⟨200, rfl⟩)
  ⟨Or.inr ⟨200, rfl⟩, rfl, ⟨h.1.1, h.1.2.1, h.1.2.2.2.1 rfl, h.1.2.2.2.2⟩,
    ⟨h.2.1, h.2.2.1, h.2.2.2.2.1 rfl, h.2.2.2.2.2⟩⟩

/-- C4. For every initial page, every form and every outcome of the request
(2xx response, non-2xx response with or without an `error` property,
unparseable body, network failure), the phase-1 and the phase-2 handler
complete normally with the submit control enabled and the spinner hidden
(`none`); the handler does suspend, and in every state in which it is suspended
the submit control is disabled and the spinner shown; the statements run are
the three opening ones (the third disables the control), a middle part, and
the two closing ones (the first re-enables the control), and after every
initial part of the middle the control is disabled. -/
theorem submit_control_interval (w : World) (form : Form) (net : FetchResult) :
    ((phase1_onsubmit form net).completion = .normal () ∧
    ((run (phase1_onsubmit form net).effects w).dom "submit-btn").disabled = false ∧
    ((run (phase1_onsubmit form net).effects w).dom "spinner").display = "none" ∧
    statesAtAwait (phase1_onsubmit form net).effects w ≠ [] ∧
    (∀ s ∈ statesAtAwait (phase1_onsubmit form net).effects w,
      (s.dom "submit-btn").disabled = true ∧ (s.dom "spinner").display = "inline-block") ∧
    (∃ mid, (phase1_onsubmit form net).effects =
        [.preventDefault, .setInnerHTML "banner" "", .setDisabled "submit-btn" true] ++ mid ++
          [.setDisabled "submit-btn" false, .setDisplay "spinner" "none"] ∧
      ∀ k, ((run ([.preventDefault, .setInnerHTML "banner" "",
          .setDisabled "submit-btn" true] ++ mid.take k) w).dom "submit-btn").disabled = true)) ∧
    ((phase2_onsubmit form net).completion = .normal () ∧
    ((run (phase2_onsubmit form net).effects w).dom "submit-btn").disabled = false ∧
    ((run (phase2_onsubmit form net).effects w).dom "spinner").display = "none" ∧
    statesAtAwait (phase2_onsubmit form net).effects w ≠ [] ∧
    (∀ s ∈ statesAtAwait (phase2_onsubmit form net).effects w,
      (s.dom "submit-btn").disabled = true ∧ (s.dom "spinner").display = "inline-block") ∧
    (∃ mid, (phase2_onsubmit form net).effects =
        [.preventDefault, .setInnerHTML "banner" "", .setDisabled "submit-btn" true] ++ mid ++
          [.setDisabled "submit-btn" false, .setDisplay "spinner" "none"] ∧
      ∀ k, ((run ([.preventDefault, .setInnerHTML "banner" "",
          .setDisabled "submit-btn" true] ++ mid.take k) w).dom "submit-btn").disabled = true)) := by
  have main : ∀ (cfg : Config) (dl : String),
      dl = "download-phase1" ∨ dl = "download-phase2" →
      ((controller cfg dl form net).completion = .normal () ∧
      ((run (controller cfg dl form net).effects w).dom "submit-btn").disabled = false ∧
      ((run (controller cfg dl form net).effects w).dom "spinner").display = "none" ∧
      statesAtAwait (controller cfg dl form net).effects w ≠ [] ∧
      (∀ s ∈ statesAtAwait (controller cfg dl form net).effects w,
        (s.dom "submit-btn").disabled = true ∧ (s.dom "spinner").display = "inline-block") ∧
      (∃ mid, (controller cfg dl form net).effects =
          [.preventDefault, .setInnerHTML "banner" "", .setDisabled "submit-btn" true] ++ mid ++
            [.setDisabled "submit-btn" false, .setDisplay "spinner" "none"] ∧
        ∀ k, ((run ([.preventDefault, .setInnerHTML "banner" "",
            .setDisabled "submit-btn" true] ++ mid.take k) w).dom "submit-btn").disabled
              = true)) := by
    intro cfg dl hdl
    obtain ⟨mid, hshape, hmid⟩ := controller_shape cfg dl form net
    obtain ⟨n, hn⟩ := controller_statesAtAwait cfg dl form net w
    have hst := suspended_state cfg dl form w hdl
    have hfin := final_controls mid w
    refine ⟨by rw [hshape], by rw [hshape]; exact hfin.1, by rw [hshape]; exact hfin.2,
      by rw [hn]; simp [List.replicate], ?_, mid, by rw [hshape], ?_⟩
    · intro s hs
      rw [hn] at hs
      rw [List.eq_of_mem_replicate hs]
      exact ⟨hst.2.1, hst.2.2.1⟩
    · intro k
      exact disabled_between mid w hmid (mid.take k) (mid.drop k) (List.take_append_drop k mid).symm
  exact ⟨main phase1Config "download-phase1" (Or.inl rfl),
    main phase2Config "download-phase2" (Or.inr rfl)⟩

/-- C5. For every initial page, form and outcome `net`: the phase-1 handler
issues exactly one request, a POST to `http://localhost:5000/upload`, and every
URL it uses is that one or `http://localhost:5000/download/phase1`, never
`http://localhost:5000/allocate` or `http://localhost:5000/download/phase2`; on
success (status in 200..299, JSON body) it sets the link target of
`download-phase1` to `http://localhost:5000/download/phase1`. The phase-2
handler does the same with `http://localhost:5000/allocate` and
`http://localhost:5000/download/phase2`, never using the phase-1 URLs. -/
theorem phases_never_cross (w : World) (form : Form) (net : FetchResult) (okStatus : Nat)
    (data : Json) (hok : 200 ≤ okStatus ∧ okStatus ≤ 299) :
    ((run (phase1_onsubmit form net).effects w).requests
      = w.requests ++ [⟨"http://localhost:5000/upload", "POST", FormData.ofForm form⟩] ∧
    ((run (phase1_onsubmit form (.resolved ⟨okStatus, .ok data⟩)).effects w).dom "download-phase1").href
      = "http://localhost:5000/download/phase1" ∧
    (∀ s ∈ (phase1_onsubmit form net).effects, ∀ url ∈ s.urls,
      (url = "http://localhost:5000/upload" ∨ url = "http://localhost:5000/download/phase1") ∧ url ≠ "http://localhost:5000/allocate" ∧ url ≠ "http://localhost:5000/download/phase2")) ∧
    ((run (phase2_onsubmit form net).effects w).requests
      = w.requests ++ [⟨"http://localhost:5000/allocate", "POST", FormData.ofForm form⟩] ∧
    ((run (phase2_onsubmit form (.resolved ⟨okStatus, .ok data⟩)).effects w).dom "download-phase2").href
      = "http://localhost:5000/download/phase2" ∧
    (∀ s ∈ (phase2_onsubmit form net).effects, ∀ url ∈ s.urls,
      (url = "http://localhost:5000/allocate" ∨ url = "http://localhost:5000/download/phase2") ∧ url ≠ "http://localhost:5000/upload" ∧ url ≠ "http://localhost:5000/download/phase1")) := by
  have hsucc := isSuccess_of_status okStatus data hok
  refine ⟨⟨?_, ?_, ?_⟩, ⟨?_, ?_, ?_⟩⟩
  · rw [phase1_eq_controller, controller_requests, phase1_submit_url]
  · rw [phase1_eq_controller, controller_success_href _ _ _ _ _ hsucc, phase1_download_url]
  · intro s hs url hu
    have h := controller_urls phase1Config "download-phase1" form net s hs url hu
    rw [phase1_submit_url, phase1_download_url] at h
    rcases h with rfl | rfl <;> decide
  · rw [phase2_eq_controller, controller_requests, phase2_submit_url]
  · rw [phase2_eq_controller, controller_success_href _ _ _ _ _ hsucc, phase2_download_url]
  · intro s hs url hu
    have h := controller_urls phase2Config "download-phase2" form net s hs url hu
    rw [phase2_submit_url, phase2_download_url] at h
    rcases h with rfl | rfl <;> decide

/-- Witness for C5: the outcome is a response with status 500, and the
successful response is `{ }` with status 200, on a freshly loaded page. -/
theorem phases_never_cross_witness :
    (200 ≤ 200 ∧ 200 ≤ 299) ∧
    ((run (phase1_onsubmit Form.sample
      (FetchResult.resolved ⟨500, .ok (.obj .nil)⟩)).effects World.fresh).requests
      = World.fresh.requests ++ [⟨"http://localhost:5000/upload", "POST", FormData.ofForm Form.sample⟩] ∧
    ((run (phase1_onsubmit Form.sample (.resolved ⟨200, .ok (.obj .nil)⟩)).effects World.fresh).dom "download-phase1").href
      = "http://localhost:5000/download/phase1" ∧
    (∀ s ∈ (phase1_onsubmit Form.sample
      (FetchResult.resolved ⟨500, .ok (.obj .nil)⟩)).effects, ∀ url ∈ s.urls,
      (url = "http://localhost:5000/upload" ∨ url = "http://localhost:5000/download/phase1") ∧ url ≠ "http://localhost:5000/allocate" ∧ url ≠ "http://localhost:5000/download/phase2")) ∧
    ((run (phase2_onsubmit Form.sample
      (FetchResult.resolved ⟨500, .ok (.obj .nil)⟩)).effects World.fresh).requests
      = World.fresh.requests ++ [⟨"http://localhost:5000/allocate", "POST", FormData.ofForm Form.sample⟩] ∧
    ((run (phase2_onsubmit Form.sample (.resolved ⟨200, .ok (.obj .nil)⟩)).effects World.fresh).dom "download-phase2").href
      = "http://localhost:5000/download/phase2" ∧
    (∀ s ∈ (phase2_onsubmit Form.sample
      (FetchResult.resolved ⟨500, .ok (.obj .nil)⟩)).effects, ∀ url ∈ s.urls,
      (url = "http://localhost:5000/allocate" ∨ url = "http://localhost:5000/download/phase2") ∧ url ≠ "http://localhost:5000/upload" ∧ url ≠ "http://localhost:5000/download/phase1")) :=
  ⟨by decide,
    phases_never_cross World.fresh Form.sample (.resolved ⟨500, .ok (.obj .nil)⟩) 200
      (.obj .nil) (by decide)⟩

/-- C6. Submitting state: for every initial page (whatever the previous banner,
button, spinner and download-link state), every form and every outcome, the
phase-1 and the phase-2 handler suspend on the network call, and in the state
in which they first suspend the banner is empty, the submit control is
disabled, the spinner is displayed as `inline-block`, the download link of the
page is hidden (`none`), and the request just issued is a POST to the submit
URL whose body is the payload built from the entries of the form. -/
theorem submitting_state (w : World) (form : Form) (net : FetchResult) :
    (∃ s rest, statesAtAwait (phase1_onsubmit form net).effects w = s :: rest ∧
      (s.dom "banner").innerHTML = "" ∧
      (s.dom "submit-btn").disabled = true ∧
      (s.dom "spinner").display = "inline-block" ∧
      (s.dom "download-phase1").display = "none" ∧
      s.requests = w.requests ++ [⟨"http://localhost:5000/upload", "POST", ⟨form.entries⟩⟩]) ∧
    (∃ s rest, statesAtAwait (phase2_onsubmit form net).effects w = s :: rest ∧
      (s.dom "banner").innerHTML = "" ∧
      (s.dom "submit-btn").disabled = true ∧
      (s.dom "spinner").display = "inline-block" ∧
      (s.dom "download-phase2").display = "none" ∧
      s.requests = w.requests ++ [⟨"http://localhost:5000/allocate", "POST", ⟨form.entries⟩⟩]) := by
  obtain ⟨n1, h1⟩ := controller_statesAtAwait phase1Config "download-phase1" form net w
  obtain ⟨n2, h2⟩ := controller_statesAtAwait phase2Config "download-phase2" form net w
  have s1 := suspended_state phase1Config "download-phase1" form w (Or.inl rfl)
  have s2 := suspended_state phase2Config "download-phase2" form w (Or.inr rfl)
  rw [phase1_eq_controller, phase2_eq_controller, h1, h2]
  refine ⟨⟨_, _, List.replicate_succ _ _, s1.1, s1.2.1, s1.2.2.1, s1.2.2.2.1, ?_⟩,
    ⟨_, _, List.replicate_succ _ _, s2.1, s2.2.1, s2.2.2.1, s2.2.2.2.1, ?_⟩⟩
  · rw [s1.2.2.2.2.1, phase1_submit_url]
    rfl
  · rw [s2.2.2.2.2.1, phase2_submit_url]
    rfl

/-- C7, counterexample. A response with status 200 whose body is the text of an
HTML page, so that parsing it as JSON fails: on a freshly loaded page the
phase-1 handler and the legacy phase-1 handler do not let the failure escape;
they complete normally, the first with the error banner assigned to and held
by the banner, the second with the alert. -/
theorem malformed_response_example :
    (¬ ∃ err, (phase1_onsubmit Form.sample
      (.resolved ⟨200, .error ⟨"Unexpected token < in JSON at position 0"⟩⟩)).completion
        = .throw err) ∧
    (phase1_onsubmit Form.sample
      (.resolved ⟨200, .error ⟨"Unexpected token < in JSON at position 0"⟩⟩)).completion
        = .normal () ∧
    ((run (phase1_onsubmit Form.sample
      (.resolved ⟨200, .error ⟨"Unexpected token < in JSON at position 0"⟩⟩)).effects
      World.fresh).dom "banner").innerHTML
      = "<div class='banner banner-error'>Error: Unexpected token < in JSON at position 0</div>" ∧
    ((run (phase1_onsubmit Form.sample
      (.resolved ⟨200, .error ⟨"Unexpected token < in JSON at position 0"⟩⟩)).effects
      World.fresh).dom "banner").content
      = some [.element "div" [("class", "banner banner-error")]
          [.text "Error: Unexpected token < in JSON at position 0"]] ∧
    (¬ ∃ err, (script_phase1_onsubmit Form.sample
      (.resolved ⟨200, .error ⟨"Unexpected token < in JSON at position 0"⟩⟩)).completion
        = .throw err) ∧
    (script_phase1_onsubmit Form.sample
      (.resolved ⟨200, .error ⟨"Unexpected token < in JSON at position 0"⟩⟩)).completion
        = .normal () ∧
    (run (script_phase1_onsubmit Form.sample
      (.resolved ⟨200, .error ⟨"Unexpected token < in JSON at position 0"⟩⟩)).effects
      World.fresh).alerts = ["Error: Unexpected token < in JSON at position 0"] := by
  refine ⟨?_, rfl, by decide, rfl, ?_, rfl, by decide⟩
  · rintro ⟨err, h⟩
    have h2 : Completion.normal () = Completion.throw err := h
    cases h2
  · rintro ⟨err, h⟩
    have h2 : Completion.normal () = Completion.throw err := h
    cases h2

/-- C7, amended. Malformed response: for every initial page, every form and
every response (of any status) whose body cannot be parsed as JSON, with
failure `e`, the failure is caught by the handler. The phase-1 and phase-2
handlers complete normally having assigned to the banner the markup of an
error banner with `Error: ` followed by the message of `e`; the banner holds
what that markup parses to, and when the message has no `<`, ampersand, NUL
or carriage return that is exactly the one error banner with that text. The
two legacy handlers complete normally after one alert with `Error: ` followed
by the message, leaving every page element as it was. -/
theorem malformed_response_caught (w : World) (form : Form) (status : Nat) (e : JsError) :
    ((phase1_onsubmit form (.resolved ⟨status, .error e⟩)).completion = .normal () ∧
    ((run (phase1_onsubmit form (.resolved ⟨status, .error e⟩)).effects w).dom "banner").innerHTML
      = "<div class='banner banner-error'>Error: " ++ e.message ++ "</div>" ∧
    ((run (phase1_onsubmit form (.resolved ⟨status, .error e⟩)).effects w).dom "banner").content
      = parseFragment ("<div class='banner banner-error'>Error: " ++ e.message ++ "</div>") ∧
    (plainText e.message = true →
      ((run (phase1_onsubmit form (.resolved ⟨status, .error e⟩)).effects w).dom "banner").content
        = some [.element "div" [("class", "banner banner-error")]
            [.text ("Error: " ++ e.message)]])) ∧
    ((phase2_onsubmit form (.resolved ⟨status, .error e⟩)).completion = .normal () ∧
    ((run (phase2_onsubmit form (.resolved ⟨status, .error e⟩)).effects w).dom "banner").innerHTML
      = "<div class='banner banner-error'>Error: " ++ e.message ++ "</div>" ∧
    ((run (phase2_onsubmit form (.resolved ⟨status, .error e⟩)).effects w).dom "banner").content
      = parseFragment ("<div class='banner banner-error'>Error: " ++ e.message ++ "</div>") ∧
    (plainText e.message = true →
      ((run (phase2_onsubmit form (.resolved ⟨status, .error e⟩)).effects w).dom "banner").content
        = some [.element "div" [("class", "banner banner-error")]
            [.text ("Error: " ++ e.message)]])) ∧
    ((script_phase1_onsubmit form (.resolved ⟨status, .error e⟩)).completion = .normal () ∧
    (run (script_phase1_onsubmit form (.resolved ⟨status, .error e⟩)).effects w).alerts
      = w.alerts ++ ["Error: " ++ e.message] ∧
    (run (script_phase1_onsubmit form (.resolved ⟨status, .error e⟩)).effects w).dom = w.dom) ∧
    ((script_phase2_onsubmit form (.resolved ⟨status, .error e⟩)).completion = .normal () ∧
    (run (script_phase2_onsubmit form (.resolved ⟨status, .error e⟩)).effects w).alerts
      = w.alerts ++ ["Error: " ++ e.message] ∧
    (run (script_phase2_onsubmit form (.resolved ⟨status, .error e⟩)).effects w).dom = w.dom) := by
  rw [phase1_eq_controller, phase2_eq_controller, controller_unparseable,
    controller_unparseable, script_phase1_onsubmit_unparseable,
    script_phase2_onsubmit_unparseable]
  have s1 := failure_state phase1Config "download-phase1" form [.await] e.message w
    (Or.inr rfl) (Or.inl rfl)
  have s2 := failure_state phase2Config "download-phase2" form [.await] e.message w
    (Or.inr rfl) (Or.inr rfl)
  have c1 := failure_content phase1Config "download-phase1" form [.await] e.message w
    (Or.inr rfl) (Or.inl rfl)
  have c2 := failure_content phase2Config "download-phase2" form [.await] e.message w
    (Or.inr rfl) (Or.inr rfl)
  refine ⟨⟨rfl, s1.1, c1, fun hp => c1.trans (error_banner_content e.message hp)⟩,
    ⟨rfl, s2.1, c2, fun hp => c2.trans (error_banner_content e.message hp)⟩,
    ⟨rfl, ?_, ?_⟩, ⟨rfl, ?_, ?_⟩⟩ <;>
    simp [run, exec]

/-- C8. The phase-1 and phase-2 handlers are instances of one controller built
from a configuration record (submit endpoint, download endpoint, success
message, summary text) and bound to the download element of its page: for
every form, every request outcome and every initial page, the phase-1 handler
equals the controller at (`/upload`, `/download/phase1`,
`Allocation completed successfully!`, `120 students allocated to 5 rooms.`) on
`download-phase1`, and the phase-2 handler equals it at (`/allocate`,
`/download/phase2`, `Faculty allocation completed!`,
`Faculty allocated successfully.`) on `download-phase2`; so they perform the
same effects and reach the same page. -/
theorem handlers_are_controller_instances (w : World) (form : Form) (net : FetchResult) :
    phase1_onsubmit form net =
      controller ⟨"/upload", "/download/phase1", "Allocation completed successfully!",
        "120 students allocated to 5 rooms."⟩ "download-phase1" form net ∧
    phase2_onsubmit form net =
      controller ⟨"/allocate", "/download/phase2", "Faculty allocation completed!",
        "Faculty allocated successfully."⟩ "download-phase2" form net ∧
    run (phase1_onsubmit form net).effects w =
      run (controller ⟨"/upload", "/download/phase1", "Allocation completed successfully!",
        "120 students allocated to 5 rooms."⟩ "download-phase1" form net).effects w ∧
    run (phase2_onsubmit form net).effects w =
      run (controller ⟨"/allocate", "/download/phase2", "Faculty allocation completed!",
        "Faculty allocated successfully."⟩ "download-phase2" form net).effects w :=
  ⟨phase1_eq_controller form net, phase2_eq_controller form net,
    congrArg (fun m => run m.effects w) (phase1_eq_controller form net),
    congrArg (fun m => run m.effects w) (phase2_eq_controller form net)⟩

/-- C9. Legacy single page (`script.js`): the phase-1 handler posts the form to
`http://localhost:5000/upload` and the phase-2 handler to
`http://localhost:5000/allocate`; for a response with a 2xx status
(`okStatus`) and a JSON body both display the same element `download-link` as
`block` and set its link target to `http://localhost:5000/download`; for a
non-2xx response (`errStatus`) whose body has the string property `error` they
alert `Error: ` followed by it; for a rejected fetch or an unparseable body
(any status) with failure `err` they alert `Error: ` followed by its message;
in these failure cases no page element changes, so `download-link` is left as
it was. -/
theorem legacy_handlers (w : World) (form : Form) (okStatus errStatus anyStatus : Nat)
    (data : Json) (fields : JsonFields) (e : String) (err : JsError)
    (hok : 200 ≤ okStatus ∧ okStatus ≤ 299) (herr : ¬ (200 ≤ errStatus ∧ errStatus ≤ 299))
    (he : fields.get? "error" = some (.str e)) :
    ((run (script_phase1_onsubmit form (.resolved ⟨okStatus, .ok data⟩)).effects w).requests
        = w.requests ++ [⟨"http://localhost:5000/upload", "POST", FormData.ofForm form⟩] ∧
      ((run (script_phase1_onsubmit form (.resolved ⟨okStatus, .ok data⟩)).effects w).dom
        "download-link").display = "block" ∧
      ((run (script_phase1_onsubmit form (.resolved ⟨okStatus, .ok data⟩)).effects w).dom
        "download-link").href = "http://localhost:5000/download" ∧
      (run (script_phase1_onsubmit form (.resolved ⟨errStatus, .ok (.obj fields)⟩)).effects w).alerts
        = w.alerts ++ ["Error: " ++ e] ∧
      (run (script_phase1_onsubmit form (.resolved ⟨errStatus, .ok (.obj fields)⟩)).effects w).dom = w.dom ∧
      (run (script_phase1_onsubmit form (.rejected err)).effects w).requests
        = w.requests ++ [⟨"http://localhost:5000/upload", "POST", FormData.ofForm form⟩] ∧
      (run (script_phase1_onsubmit form (.rejected err)).effects w).alerts
        = w.alerts ++ ["Error: " ++ err.message] ∧
      (run (script_phase1_onsubmit form (.rejected err)).effects w).dom = w.dom ∧
      (run (script_phase1_onsubmit form (.resolved ⟨anyStatus, .error err⟩)).effects w).alerts
        = w.alerts ++ ["Error: " ++ err.message] ∧
      (run (script_phase1_onsubmit form (.resolved ⟨anyStatus, .error err⟩)).effects w).dom = w.dom) ∧
    ((run (script_phase2_onsubmit form (.resolved ⟨okStatus, .ok data⟩)).effects w).requests
        = w.requests ++ [⟨"http://localhost:5000/allocate", "POST", FormData.ofForm form⟩] ∧
      ((run (script_phase2_onsubmit form (.resolved ⟨okStatus, .ok data⟩)).effects w).dom
        "download-link").display = "block" ∧
      ((run (script_phase2_onsubmit form (.resolved ⟨okStatus, .ok data⟩)).effects w).dom
        "download-link").href = "http://localhost:5000/download" ∧
      (run (script_phase2_onsubmit form (.resolved ⟨errStatus, .ok (.obj fields)⟩)).effects w).alerts
        = w.alerts ++ ["Error: " ++ e] ∧
      (run (script_phase2_onsubmit form (.resolved ⟨errStatus, .ok (.obj fields)⟩)).effects w).dom = w.dom ∧
      (run (script_phase2_onsubmit form (.rejected err)).effects w).requests
        = w.requests ++ [⟨"http://localhost:5000/allocate", "POST", FormData.ofForm form⟩] ∧
      (run (script_phase2_onsubmit form (.rejected err)).effects w).alerts
        = w.alerts ++ ["Error: " ++ err.message] ∧
      (run (script_phase2_onsubmit form (.rejected err)).effects w).dom = w.dom ∧
      (run (script_phase2_onsubmit form (.resolved ⟨anyStatus, .error err⟩)).effects w).alerts
        = w.alerts ++ ["Error: " ++ err.message] ∧
      (run (script_phase2_onsubmit form (.resolved ⟨anyStatus, .error err⟩)).effects w).dom = w.dom) := by
  rw [script_phase1_onsubmit_success form okStatus data hok,
    script_phase2_onsubmit_success form okStatus data hok,
    script_phase1_onsubmit_error_field form errStatus fields e herr he,
    script_phase2_onsubmit_error_field form errStatus fields e herr he,
    script_phase1_onsubmit_rejected, script_phase2_onsubmit_rejected,
    script_phase1_onsubmit_unparseable, script_phase2_onsubmit_unparseable]
  refine ⟨⟨?_, ?_, ?_, ?_, ?_, ?_, ?_, ?_, ?_, ?_⟩, ⟨?_, ?_, ?_, ?_, ?_, ?_, ?_, ?_, ?_, ?_⟩⟩ <;>
    simp [run, exec, World.setElem]

/-- Witness for C9: the responses `{ }` with status 200 and
`{"error":"Invalid file"}` with status 400, and the failure `Failed to fetch`,
on a page whose links are displayed. -/
theorem legacy_handlers_witness :
    (200 ≤ 200 ∧ 200 ≤ 299) ∧ ¬ (200 ≤ 400 ∧ 400 ≤ 299) ∧
    JsonFields.get? (.cons "error" (.str "Invalid file") .nil) "error"
      = some (.str "Invalid file") ∧
    ((run (script_phase1_onsubmit Form.sample (.resolved ⟨200, .ok (.obj .nil)⟩)).effects World.afterSuccess).requests
        = World.afterSuccess.requests ++ [⟨"http://localhost:5000/upload", "POST", FormData.ofForm Form.sample⟩] ∧
      ((run (script_phase1_onsubmit Form.sample (.resolved ⟨200, .ok (.obj .nil)⟩)).effects World.afterSuccess).dom
        "download-link").display = "block" ∧
      ((run (script_phase1_onsubmit Form.sample (.resolved ⟨200, .ok (.obj .nil)⟩)).effects World.afterSuccess).dom
        "download-link").href = "http://localhost:5000/download" ∧
      (run (script_phase1_onsubmit Form.sample (.resolved ⟨400, .ok (.obj (.cons "error" (.str "Invalid file") .nil))⟩)).effects World.afterSuccess).alerts
        = World.afterSuccess.alerts ++ ["Error: " ++ "Invalid file"] ∧
      (run (script_phase1_onsubmit Form.sample (.resolved ⟨400, .ok (.obj (.cons "error" (.str "Invalid file") .nil))⟩)).effects World.afterSuccess).dom = World.afterSuccess.dom ∧
      (run (script_phase1_onsubmit Form.sample (.rejected ⟨"Failed to fetch"⟩)).effects World.afterSuccess).requests
        = World.afterSuccess.requests ++ [⟨"http://localhost:5000/upload", "POST", FormData.ofForm Form.sample⟩] ∧
      (run (script_phase1_onsubmit Form.sample (.rejected ⟨"Failed to fetch"⟩)).effects World.afterSuccess).alerts
        = World.afterSuccess.alerts ++ ["Error: " ++ "Failed to fetch"] ∧
      (run (script_phase1_onsubmit Form.sample (.rejected ⟨"Failed to fetch"⟩)).effects World.afterSuccess).dom = World.afterSuccess.dom ∧
      (run (script_phase1_onsubmit Form.sample (.resolved ⟨200, .error ⟨"Failed to fetch"⟩⟩)).effects World.afterSuccess).alerts
        = World.afterSuccess.alerts ++ ["Error: " ++ "Failed to fetch"] ∧
      (run (script_phase1_onsubmit Form.sample (.resolved ⟨200, .error ⟨"Failed to fetch"⟩⟩)).effects World.afterSuccess).dom = World.afterSuccess.dom) ∧
    ((run (script_phase2_onsubmit Form.sample (.resolved ⟨200, .ok (.obj .nil)⟩)).effects World.afterSuccess).requests
        = World.afterSuccess.requests ++ [⟨"http://localhost:5000/allocate", "POST", FormData.ofForm Form.sample⟩] ∧
      ((run (script_phase2_onsubmit Form.sample (.resolved ⟨200, .ok (.obj .nil)⟩)).effects World.afterSuccess).dom
        "download-link").display = "block" ∧
      ((run (script_phase2_onsubmit Form.sample (.resolved ⟨200, .ok (.obj .nil)⟩)).effects World.afterSuccess).dom
        "download-link").href = "http://localhost:5000/download" ∧
      (run (script_phase2_onsubmit Form.sample (.resolved ⟨400, .ok (.obj (.cons "error" (.str "Invalid file") .nil))⟩)).effects World.afterSuccess).alerts
        = World.afterSuccess.alerts ++ ["Error: " ++ "Invalid file"] ∧
      (run (script_phase2_onsubmit Form.sample (.resolved ⟨400, .ok (.obj (.cons "error" (.str "Invalid file") .nil))⟩)).effects World.afterSuccess).dom = World.afterSuccess.dom ∧
      (run (script_phase2_onsubmit Form.sample (.rejected ⟨"Failed to fetch"⟩)).effects World.afterSuccess).requests
        = World.afterSuccess.requests ++ [⟨"http://localhost:5000/allocate", "POST", FormData.ofForm Form.sample⟩] ∧
      (run (script_phase2_onsubmit Form.sample (.rejected ⟨"Failed to fetch"⟩)).effects World.afterSuccess).alerts
        = World.afterSuccess.alerts ++ ["Error: " ++ "Failed to fetch"] ∧
      (run (script_phase2_onsubmit Form.sample (.rejected ⟨"Failed to fetch"⟩)).effects World.afterSuccess).dom = World.afterSuccess.dom ∧
      (run (script_phase2_onsubmit Form.sample (.resolved ⟨200, .error ⟨"Failed to fetch"⟩⟩)).effects World.afterSuccess).alerts
        = World.afterSuccess.alerts ++ ["Error: " ++ "Failed to fetch"] ∧
      (run (script_phase2_onsubmit Form.sample (.resolved ⟨200, .error ⟨"Failed to fetch"⟩⟩)).effects World.afterSuccess).dom = World.afterSuccess.dom) :=
  ⟨by decide, by decide, rfl,
    legacy_handlers World.afterSuccess Form.sample 200 400 200 (.obj .nil)
      (.cons "error" (.str "Invalid file") .nil) "Invalid file" ⟨"Failed to fetch"⟩
      (by decide) (by decide) rfl⟩

/-- C10. Frame property of `phase1.js` and `phase2.js`: for every initial page
and every non-success outcome `net2` (non-2xx response, unparseable body,
network failure), the handler leaves the display of the summary banner and the
summary text as they were; no statement of any run hides the summary banner;
hence after a successful submission (`net1`) followed by a failed one
(`net2`) the page shows an error banner and a hidden download link while the
summary banner is still displayed with the summary text of the success. -/
theorem summary_frame (w : World) (form1 form2 : Form) (net1 net2 : FetchResult)
    (h1 : isSuccess net1 = true) (h2 : isSuccess net2 = false) :
    (((run (phase1_onsubmit form2 net2).effects w).dom "summary-banner").display
        = (w.dom "summary-banner").display ∧
      ((run (phase1_onsubmit form2 net2).effects w).dom "summary-text").textContent
        = (w.dom "summary-text").textContent ∧
      (∀ net, ∀ s ∈ (phase1_onsubmit form2 net).effects, ∀ v,
        s = .setDisplay "summary-banner" v → v = "block") ∧
      (∃ m, ((run (phase1_onsubmit form2 net2).effects (run (phase1_onsubmit form1 net1).effects w)).dom
        "banner").innerHTML = "<div class='banner banner-error'>Error: " ++ m ++ "</div>") ∧
      ((run (phase1_onsubmit form2 net2).effects (run (phase1_onsubmit form1 net1).effects w)).dom
        "download-phase1").display = "none" ∧
      ((run (phase1_onsubmit form2 net2).effects (run (phase1_onsubmit form1 net1).effects w)).dom
        "summary-banner").display = "block" ∧
      ((run (phase1_onsubmit form2 net2).effects (run (phase1_onsubmit form1 net1).effects w)).dom
        "summary-text").textContent = "120 students allocated to 5 rooms.") ∧
    (((run (phase2_onsubmit form2 net2).effects w).dom "summary-banner").display
        = (w.dom "summary-banner").display ∧
      ((run (phase2_onsubmit form2 net2).effects w).dom "summary-text").textContent
        = (w.dom "summary-text").textContent ∧
      (∀ net, ∀ s ∈ (phase2_onsubmit form2 net).effects, ∀ v,
        s = .setDisplay "summary-banner" v → v = "block") ∧
      (∃ m, ((run (phase2_onsubmit form2 net2).effects (run (phase2_onsubmit form1 net1).effects w)).dom
        "banner").innerHTML = "<div class='banner banner-error'>Error: " ++ m ++ "</div>") ∧
      ((run (phase2_onsubmit form2 net2).effects (run (phase2_onsubmit form1 net1).effects w)).dom
        "download-phase2").display = "none" ∧
      ((run (phase2_onsubmit form2 net2).effects (run (phase2_onsubmit form1 net1).effects w)).dom
        "summary-banner").display = "block" ∧
      ((run (phase2_onsubmit form2 net2).effects (run (phase2_onsubmit form1 net1).effects w)).dom
        "summary-text").textContent = "Faculty allocated successfully.") := by
  have main : ∀ (cfg : Config) (dl : String),
      dl = "download-phase1" ∨ dl = "download-phase2" →
      (((run (controller cfg dl form2 net2).effects w).dom "summary-banner").display
          = (w.dom "summary-banner").display ∧
        ((run (controller cfg dl form2 net2).effects w).dom "summary-text").textContent
          = (w.dom "summary-text").textContent ∧
        (∀ net, ∀ s ∈ (controller cfg dl form2 net).effects, ∀ v,
          s = .setDisplay "summary-banner" v → v = "block") ∧
        (∃ m, ((run (controller cfg dl form2 net2).effects
          (run (controller cfg dl form1 net1).effects w)).dom "banner").innerHTML
            = "<div class='banner banner-error'>Error: " ++ m ++ "</div>") ∧
        ((run (controller cfg dl form2 net2).effects
          (run (controller cfg dl form1 net1).effects w)).dom dl).display = "none" ∧
        ((run (controller cfg dl form2 net2).effects
          (run (controller cfg dl form1 net1).effects w)).dom "summary-banner").display
            = "block" ∧
        ((run (controller cfg dl form2 net2).effects
          (run (controller cfg dl form1 net1).effects w)).dom "summary-text").textContent
            = cfg.summaryText) := by
    intro cfg dl hdl
    obtain ⟨aw, m, haw, h⟩ := controller_failure cfg dl form2 net2 h2
    have hf := failure_state cfg dl form2 aw m w haw hdl
    have hseq := success_then_failure cfg dl form1 form2 net1 net2 w hdl h1 h2
    refine ⟨by rw [h, hf.2.2.2.2.1], by rw [h, hf.2.2.2.2.2],
      fun net => failure_never_hides_summary cfg dl form2 net hdl,
      hseq.1, hseq.2.1, hseq.2.2.1, hseq.2.2.2⟩
  exact ⟨main phase1Config "download-phase1" (Or.inl rfl),
    main phase2Config "download-phase2" (Or.inr rfl)⟩

/-- Witness for C10: on a freshly loaded page, the response `{ }` with status
200 followed by a submission whose fetch is rejected with `Failed to fetch`. -/
theorem summary_frame_witness :
    isSuccess (FetchResult.resolved ⟨200, .ok (.obj .nil)⟩) = true ∧
    isSuccess (FetchResult.rejected ⟨"Failed to fetch"⟩) = false ∧
    (((run (phase1_onsubmit Form.sample
        (FetchResult.rejected ⟨"Failed to fetch"⟩)).effects World.fresh).dom "summary-banner").display
        = (World.fresh.dom "summary-banner").display ∧
      ((run (phase1_onsubmit Form.sample
        (FetchResult.rejected ⟨"Failed to fetch"⟩)).effects World.fresh).dom "summary-text").textContent
        = (World.fresh.dom "summary-text").textContent ∧
      (∀ net, ∀ s ∈ (phase1_onsubmit Form.sample net).effects, ∀ v,
        s = .setDisplay "summary-banner" v → v = "block") ∧
      (∃ m, ((run (phase1_onsubmit Form.sample
        (FetchResult.rejected ⟨"Failed to fetch"⟩)).effects (run (phase1_onsubmit Form.sample
        (FetchResult.resolved ⟨200, .ok (.obj .nil)⟩)).effects World.fresh)).dom
        "banner").innerHTML = "<div class='banner banner-error'>Error: " ++ m ++ "</div>") ∧
      ((run (phase1_onsubmit Form.sample
        (FetchResult.rejected ⟨"Failed to fetch"⟩)).effects (run (phase1_onsubmit Form.sample
        (FetchResult.resolved ⟨200, .ok (.obj .nil)⟩)).effects World.fresh)).dom
        "download-phase1").display = "none" ∧
      ((run (phase1_onsubmit Form.sample
        (FetchResult.rejected ⟨"Failed to fetch"⟩)).effects (run (phase1_onsubmit Form.sample
        (FetchResult.resolved ⟨200, .ok (.obj .nil)⟩)).effects World.fresh)).dom
        "summary-banner").display = "block" ∧
      ((run (phase1_onsubmit Form.sample
        (FetchResult.rejected ⟨"Failed to fetch"⟩)).effects (run (phase1_onsubmit Form.sample
        (FetchResult.resolved ⟨200, .ok (.obj .nil)⟩)).effects World.fresh)).dom
        "summary-text").textContent = "120 students allocated to 5 rooms.") ∧
    (((run (phase2_onsubmit Form.sample
        (FetchResult.rejected ⟨"Failed to fetch"⟩)).effects World.fresh).dom "summary-banner").display
        = (World.fresh.dom "summary-banner").display ∧
      ((run (phase2_onsubmit Form.sample
        (FetchResult.rejected ⟨"Failed to fetch"⟩)).effects World.fresh).dom "summary-text").textContent
        = (World.fresh.dom "summary-text").textContent ∧
      (∀ net, ∀ s ∈ (phase2_onsubmit Form.sample net).effects, ∀ v,
        s = .setDisplay "summary-banner" v → v = "block") ∧
      (∃ m, ((run (phase2_onsubmit Form.sample
        (FetchResult.rejected ⟨"Failed to fetch"⟩)).effects (run (phase2_onsubmit Form.sample
        (FetchResult.resolved ⟨200, .ok (.obj .nil)⟩)).effects World.fresh)).dom
        "banner").innerHTML = "<div class='banner banner-error'>Error: " ++ m ++ "</div>") ∧
      ((run (phase2_onsubmit Form.sample
        (FetchResult.rejected ⟨"Failed to fetch"⟩)).effects (run (phase2_onsubmit Form.sample
        (FetchResult.resolved ⟨200, .ok (.obj .nil)⟩)).effects World.fresh)).dom
        "download-phase2").display = "none" ∧
      ((run (phase2_onsubmit Form.sample
        (FetchResult.rejected ⟨"Failed to fetch"⟩)).effects (run (phase2_onsubmit Form.sample
        (FetchResult.resolved ⟨200, .ok (.obj .nil)⟩)).effects World.fresh)).dom
        "summary-banner").display = "block" ∧
      ((run (phase2_onsubmit Form.sample
        (FetchResult.rejected ⟨"Failed to fetch"⟩)).effects (run (phase2_onsubmit Form.sample
        (FetchResult.resolved ⟨200, .ok (.obj .nil)⟩)).effects World.fresh)).dom
        "summary-text").textContent = "Faculty allocated successfully.") :=
  ⟨rfl, rfl, summary_frame World.fresh Form.sample Form.sample _ _ rfl rfl⟩

end ExamAlloc
